import Mathlib

set_option maxRecDepth 16384

/-!
Verification development for the `bub` disassembler (a static
recursive-descent disassembler for LR35902 / Sharp SM83 cartridge images).

The definitions below are a shallow embedding of the Rust sources:
`src/xaddr.rs`, `src/gbasm.rs`, `src/tags.rs`, `src/util.rs`, `src/anal.rs`.
Machine integers (`u8`, `u16`, `usize`) are embedded as `Nat`, with an
explicit `% 0x10000` wherever the source relies on 16-bit wrap-around;
fallible operations (`Result`, slice indexing that can panic) are embedded
as `DecodeResult` / `Except` / `Option`.  Rust loops are embedded either as
structural recursion or as recursion on an explicit fuel argument that the
caller instantiates with a bound (slice length + 1) that strictly dominates
the number of iterations the loop can perform, so that fuel exhaustion is
unreachable.
-/

namespace Bub

/-! ## `src/xaddr.rs` -/

/-- `XAddr { bank: u16, addr: u16 }` from `src/xaddr.rs`. -/
structure XAddr where
  bank : Nat
  addr : Nat
deriving DecidableEq, Repr

/-- The derived `Ord` of `XAddr` is lexicographic on `(bank, addr)`. -/
def XAddr.toLexPair (xa : XAddr) : Lex (Nat × Nat) := toLex (xa.bank, xa.addr)

theorem XAddr.toLexPair_injective : Function.Injective XAddr.toLexPair := by
  intro a b h
  cases a; cases b
  simpa [XAddr.toLexPair, toLex, Prod.ext_iff, XAddr.mk.injEq] using h

instance : LinearOrder XAddr := LinearOrder.lift' XAddr.toLexPair XAddr.toLexPair_injective

/-- `impl Add<u16> for XAddr` (and `AddAssign<u16>`): adds to the `addr`
half only, with 16-bit wrap-around; the `bank` half is untouched. -/
def XAddr.addU16 (xa : XAddr) (n : Nat) : XAddr :=
  XAddr.mk xa.bank ((xa.addr + n) % 0x10000)

instance : HAdd XAddr Nat XAddr := ⟨XAddr.addU16⟩

/-! ## `src/gbasm.rs`: opcode tables -/

inductive OperandKind where
  | None
  | Undefined
  | LongOpcode
  | Code
  | CodeRelative
  | Data
  | DataHram
deriving DecidableEq, Repr

def OPCODE_FLAG_JUMP : Nat        := 0b00000001
def OPCODE_FLAG_CALL : Nat        := 0b00000010
def OPCODE_FLAG_CONDITIONAL : Nat := 0b00000100
def OPCODE_FLAG_WRITE_MEM : Nat   := 0b00001000
def OPCODE_FLAG_READ_MEM : Nat    := 0b00010000
def OPCODE_FLAG_INVALID : Nat     := 0b10000000

def OPCODE_RST_00 : Nat := 0xC7
def OPCODE_RST_08 : Nat := 0xCF
def OPCODE_RST_10 : Nat := 0xD7
def OPCODE_RST_18 : Nat := 0xDF
def OPCODE_RST_20 : Nat := 0xE7
def OPCODE_RST_28 : Nat := 0xEF
def OPCODE_RST_30 : Nat := 0xF7
def OPCODE_RST_38 : Nat := 0xFF

def OPCODE_BITOPS : Nat := 0xCB

/-- `OpcodeInfo` from `src/gbasm.rs`.  The `fmt: &'static str` field (the
mnemonic template, used only by the listing printer) is omitted; the
mnemonic of each entry is kept as a comment in the tables below. -/
structure OpcodeInfo where
  operand_len : Nat
  operand_kind : OperandKind
  flags : Nat
deriving DecidableEq, Repr

def opi (operand_len : Nat) (operand_kind : OperandKind) (flags : Nat) : OpcodeInfo :=
  OpcodeInfo.mk operand_len operand_kind flags
def OPCODE_INFO : List OpcodeInfo := [
  opi 0 .None 0, -- 00 nop
  opi 2 .Undefined 0, -- 01 ld bc, %
  opi 0 .None OPCODE_FLAG_WRITE_MEM, -- 02 ld [bc], a
  opi 0 .None 0, -- 03 inc bc
  opi 0 .None 0, -- 04 inc b
  opi 0 .None 0, -- 05 dec b
  opi 1 .Undefined 0, -- 06 ld b, %
  opi 0 .None 0, -- 07 rlca
  opi 2 .Data OPCODE_FLAG_WRITE_MEM, -- 08 ld [%], sp
  opi 0 .None 0, -- 09 add hl, bc
  opi 0 .None OPCODE_FLAG_READ_MEM, -- 0A ld a, [bc]
  opi 0 .None 0, -- 0B dec bc
  opi 0 .None 0, -- 0C inc c
  opi 0 .None 0, -- 0D dec c
  opi 1 .Undefined 0, -- 0E ld c, %
  opi 0 .None 0, -- 0F rrca
  opi 1 .LongOpcode 0, -- 10 stop
  opi 2 .Undefined 0, -- 11 ld de, %
  opi 0 .None OPCODE_FLAG_WRITE_MEM, -- 12 ld [de], a
  opi 0 .None 0, -- 13 inc de
  opi 0 .None 0, -- 14 inc d
  opi 0 .None 0, -- 15 dec d
  opi 1 .Undefined 0, -- 16 ld d, %
  opi 0 .None 0, -- 17 rla
  opi 1 .CodeRelative OPCODE_FLAG_JUMP, -- 18 jr %
  opi 0 .None 0, -- 19 add hl, de
  opi 0 .None OPCODE_FLAG_READ_MEM, -- 1A ld a, [de]
  opi 0 .None 0, -- 1B dec de
  opi 0 .None 0, -- 1C inc e
  opi 0 .None 0, -- 1D dec e
  opi 1 .Undefined 0, -- 1E ld e, %
  opi 0 .None 0, -- 1F rra
  opi 1 .CodeRelative (OPCODE_FLAG_JUMP ||| OPCODE_FLAG_CONDITIONAL), -- 20 jr nz, %
  opi 2 .Undefined 0, -- 21 ld hl, %
  opi 0 .None OPCODE_FLAG_WRITE_MEM, -- 22 ld [hli], a
  opi 0 .None 0, -- 23 inc hl
  opi 0 .None 0, -- 24 inc h
  opi 0 .None 0, -- 25 dec h
  opi 1 .Undefined 0, -- 26 ld h, %
  opi 0 .None 0, -- 27 daa
  opi 1 .CodeRelative (OPCODE_FLAG_JUMP ||| OPCODE_FLAG_CONDITIONAL), -- 28 jr z, %
  opi 0 .None 0, -- 29 add hl, hl
  opi 0 .None OPCODE_FLAG_READ_MEM, -- 2A ld a, [hli]
  opi 0 .None 0, -- 2B dec hl
  opi 0 .None 0, -- 2C inc l
  opi 0 .None 0, -- 2D dec l
  opi 1 .Undefined 0, -- 2E ld l, %
  opi 0 .None 0, -- 2F cpl
  opi 1 .CodeRelative (OPCODE_FLAG_JUMP ||| OPCODE_FLAG_CONDITIONAL), -- 30 jr nc, %
  opi 2 .Undefined 0, -- 31 ld sp, %
  opi 0 .None OPCODE_FLAG_WRITE_MEM, -- 32 ld [hld], a
  opi 0 .None 0, -- 33 inc sp
  opi 0 .None (OPCODE_FLAG_WRITE_MEM ||| OPCODE_FLAG_READ_MEM), -- 34 inc [hl]
  opi 0 .None (OPCODE_FLAG_WRITE_MEM ||| OPCODE_FLAG_READ_MEM), -- 35 dec [hl]
  opi 1 .Undefined OPCODE_FLAG_WRITE_MEM, -- 36 ld [hl], %
  opi 0 .None 0, -- 37 scf
  opi 1 .CodeRelative (OPCODE_FLAG_JUMP ||| OPCODE_FLAG_CONDITIONAL), -- 38 jr c, %
  opi 0 .None 0, -- 39 add hl, sp
  opi 0 .None OPCODE_FLAG_READ_MEM, -- 3A ld a, [hld]
  opi 0 .None 0, -- 3B dec sp
  opi 0 .None 0, -- 3C inc a
  opi 0 .None 0, -- 3D dec a
  opi 1 .Undefined 0, -- 3E ld a, %
  opi 0 .None 0, -- 3F ccf
  opi 0 .None 0, -- 40 ld b, b
  opi 0 .None 0, -- 41 ld b, c
  opi 0 .None 0, -- 42 ld b, d
  opi 0 .None 0, -- 43 ld b, e
  opi 0 .None 0, -- 44 ld b, h
  opi 0 .None 0, -- 45 ld b, l
  opi 0 .None OPCODE_FLAG_READ_MEM, -- 46 ld b, [hl]
  opi 0 .None 0, -- 47 ld b, a
  opi 0 .None 0, -- 48 ld c, b
  opi 0 .None 0, -- 49 ld c, c
  opi 0 .None 0, -- 4A ld c, d
  opi 0 .None 0, -- 4B ld c, e
  opi 0 .None 0, -- 4C ld c, h
  opi 0 .None 0, -- 4D ld c, l
  opi 0 .None OPCODE_FLAG_READ_MEM, -- 4E ld c, [hl]
  opi 0 .None 0, -- 4F ld c, a
  opi 0 .None 0, -- 50 ld d, b
  opi 0 .None 0, -- 51 ld d, c
  opi 0 .None 0, -- 52 ld d, d
  opi 0 .None 0, -- 53 ld d, e
  opi 0 .None 0, -- 54 ld d, h
  opi 0 .None 0, -- 55 ld d, l
  opi 0 .None OPCODE_FLAG_READ_MEM, -- 56 ld d, [hl]
  opi 0 .None 0, -- 57 ld d, a
  opi 0 .None 0, -- 58 ld e, b
  opi 0 .None 0, -- 59 ld e, c
  opi 0 .None 0, -- 5A ld e, d
  opi 0 .None 0, -- 5B ld e, e
  opi 0 .None 0, -- 5C ld e, h
  opi 0 .None 0, -- 5D ld e, l
  opi 0 .None OPCODE_FLAG_READ_MEM, -- 5E ld e, [hl]
  opi 0 .None 0, -- 5F ld e, a
  opi 0 .None 0, -- 60 ld h, b
  opi 0 .None 0, -- 61 ld h, c
  opi 0 .None 0, -- 62 ld h, d
  opi 0 .None 0, -- 63 ld h, e
  opi 0 .None 0, -- 64 ld h, h
  opi 0 .None 0, -- 65 ld h, l
  opi 0 .None OPCODE_FLAG_READ_MEM, -- 66 ld h, [hl]
  opi 0 .None 0, -- 67 ld h, a
  opi 0 .None 0, -- 68 ld l, b
  opi 0 .None 0, -- 69 ld l, c
  opi 0 .None 0, -- 6A ld l, d
  opi 0 .None 0, -- 6B ld l, e
  opi 0 .None 0, -- 6C ld l, h
  opi 0 .None 0, -- 6D ld l, l
  opi 0 .None OPCODE_FLAG_READ_MEM, -- 6E ld l, [hl]
  opi 0 .None 0, -- 6F ld l, a
  opi 0 .None OPCODE_FLAG_WRITE_MEM, -- 70 ld [hl], b
  opi 0 .None OPCODE_FLAG_WRITE_MEM, -- 71 ld [hl], c
  opi 0 .None OPCODE_FLAG_WRITE_MEM, -- 72 ld [hl], d
  opi 0 .None OPCODE_FLAG_WRITE_MEM, -- 73 ld [hl], e
  opi 0 .None OPCODE_FLAG_WRITE_MEM, -- 74 ld [hl], h
  opi 0 .None OPCODE_FLAG_WRITE_MEM, -- 75 ld [hl], l
  opi 0 .None 0, -- 76 halt
  opi 0 .None OPCODE_FLAG_WRITE_MEM, -- 77 ld [hl], a
  opi 0 .None 0, -- 78 ld a, b
  opi 0 .None 0, -- 79 ld a, c
  opi 0 .None 0, -- 7A ld a, d
  opi 0 .None 0, -- 7B ld a, e
  opi 0 .None 0, -- 7C ld a, h
  opi 0 .None 0, -- 7D ld a, l
  opi 0 .None OPCODE_FLAG_READ_MEM, -- 7E ld a, [hl]
  opi 0 .None 0, -- 7F ld a, a
  opi 0 .None 0, -- 80 add a, b
  opi 0 .None 0, -- 81 add a, c
  opi 0 .None 0, -- 82 add a, d
  opi 0 .None 0, -- 83 add a, e
  opi 0 .None 0, -- 84 add a, h
  opi 0 .None 0, -- 85 add a, l
  opi 0 .None OPCODE_FLAG_READ_MEM, -- 86 add a, [hl]
  opi 0 .None 0, -- 87 add a, a
  opi 0 .None 0, -- 88 adc a, b
  opi 0 .None 0, -- 89 adc a, c
  opi 0 .None 0, -- 8A adc a, d
  opi 0 .None 0, -- 8B adc a, e
  opi 0 .None 0, -- 8C adc a, h
  opi 0 .None 0, -- 8D adc a, l
  opi 0 .None OPCODE_FLAG_READ_MEM, -- 8E adc a, [hl]
  opi 0 .None 0, -- 8F adc a, a
  opi 0 .None 0, -- 90 sub a, b
  opi 0 .None 0, -- 91 sub a, c
  opi 0 .None 0, -- 92 sub a, d
  opi 0 .None 0, -- 93 sub a, e
  opi 0 .None 0, -- 94 sub a, h
  opi 0 .None 0, -- 95 sub a, l
  opi 0 .None OPCODE_FLAG_READ_MEM, -- 96 sub a, [hl]
  opi 0 .None 0, -- 97 sub a, a
  opi 0 .None 0, -- 98 sbc a, b
  opi 0 .None 0, -- 99 sbc a, c
  opi 0 .None 0, -- 9A sbc a, d
  opi 0 .None 0, -- 9B sbc a, e
  opi 0 .None 0, -- 9C sbc a, h
  opi 0 .None 0, -- 9D sbc a, l
  opi 0 .None OPCODE_FLAG_READ_MEM, -- 9E sbc a, [hl]
  opi 0 .None 0, -- 9F sbc a, a
  opi 0 .None 0, -- A0 and a, b
  opi 0 .None 0, -- A1 and a, c
  opi 0 .None 0, -- A2 and a, d
  opi 0 .None 0, -- A3 and a, e
  opi 0 .None 0, -- A4 and a, h
  opi 0 .None 0, -- A5 and a, l
  opi 0 .None OPCODE_FLAG_READ_MEM, -- A6 and a, [hl]
  opi 0 .None 0, -- A7 and a, a
  opi 0 .None 0, -- A8 xor a, b
  opi 0 .None 0, -- A9 xor a, c
  opi 0 .None 0, -- AA xor a, d
  opi 0 .None 0, -- AB xor a, e
  opi 0 .None 0, -- AC xor a, h
  opi 0 .None 0, -- AD xor a, l
  opi 0 .None OPCODE_FLAG_READ_MEM, -- AE xor a, [hl]
  opi 0 .None 0, -- AF xor a, a
  opi 0 .None 0, -- B0 or a, b
  opi 0 .None 0, -- B1 or a, c
  opi 0 .None 0, -- B2 or a, d
  opi 0 .None 0, -- B3 or a, e
  opi 0 .None 0, -- B4 or a, h
  opi 0 .None 0, -- B5 or a, l
  opi 0 .None OPCODE_FLAG_READ_MEM, -- B6 or a, [hl]
  opi 0 .None 0, -- B7 or a, a
  opi 0 .None 0, -- B8 cp a, b
  opi 0 .None 0, -- B9 cp a, c
  opi 0 .None 0, -- BA cp a, d
  opi 0 .None 0, -- BB cp a, e
  opi 0 .None 0, -- BC cp a, h
  opi 0 .None 0, -- BD cp a, l
  opi 0 .None OPCODE_FLAG_READ_MEM, -- BE cp a, [hl]
  opi 0 .None 0, -- BF cp a, a
  opi 0 .None (OPCODE_FLAG_JUMP ||| OPCODE_FLAG_CONDITIONAL), -- C0 ret nz
  opi 0 .None 0, -- C1 pop bc
  opi 2 .Code (OPCODE_FLAG_JUMP ||| OPCODE_FLAG_CONDITIONAL), -- C2 jp nz, %
  opi 2 .Code OPCODE_FLAG_JUMP, -- C3 jp %
  opi 2 .Code (OPCODE_FLAG_JUMP ||| OPCODE_FLAG_CALL ||| OPCODE_FLAG_CONDITIONAL), -- C4 call nz, %
  opi 0 .None 0, -- C5 push bc
  opi 1 .Undefined 0, -- C6 add a, %
  opi 0 .None (OPCODE_FLAG_JUMP ||| OPCODE_FLAG_CALL), -- C7 rst $0
  opi 0 .None (OPCODE_FLAG_JUMP ||| OPCODE_FLAG_CONDITIONAL), -- C8 ret z
  opi 0 .None OPCODE_FLAG_JUMP, -- C9 ret
  opi 2 .Code (OPCODE_FLAG_JUMP ||| OPCODE_FLAG_CONDITIONAL), -- CA jp z, %
  opi 1 .None 0, -- CB bitops
  opi 2 .Code (OPCODE_FLAG_JUMP ||| OPCODE_FLAG_CALL ||| OPCODE_FLAG_CONDITIONAL), -- CC call z, %
  opi 2 .Code (OPCODE_FLAG_JUMP ||| OPCODE_FLAG_CALL), -- CD call %
  opi 1 .Undefined 0, -- CE adc a, %
  opi 0 .None (OPCODE_FLAG_JUMP ||| OPCODE_FLAG_CALL), -- CF rst $8
  opi 0 .None (OPCODE_FLAG_JUMP ||| OPCODE_FLAG_CONDITIONAL), -- D0 ret nc
  opi 0 .None 0, -- D1 pop de
  opi 2 .Code (OPCODE_FLAG_JUMP ||| OPCODE_FLAG_CONDITIONAL), -- D2 jp nc, %
  opi 0 .None OPCODE_FLAG_INVALID, -- D3 (invalid)
  opi 2 .Code (OPCODE_FLAG_JUMP ||| OPCODE_FLAG_CALL ||| OPCODE_FLAG_CONDITIONAL), -- D4 call nc, %
  opi 0 .None 0, -- D5 push de
  opi 1 .Undefined 0, -- D6 sub a, %
  opi 0 .None (OPCODE_FLAG_JUMP ||| OPCODE_FLAG_CALL), -- D7 rst $10
  opi 0 .None (OPCODE_FLAG_JUMP ||| OPCODE_FLAG_CONDITIONAL), -- D8 ret c
  opi 0 .None OPCODE_FLAG_JUMP, -- D9 reti
  opi 2 .Code (OPCODE_FLAG_JUMP ||| OPCODE_FLAG_CONDITIONAL), -- DA jp c, %
  opi 0 .None OPCODE_FLAG_INVALID, -- DB (invalid)
  opi 2 .Code (OPCODE_FLAG_JUMP ||| OPCODE_FLAG_CALL ||| OPCODE_FLAG_CONDITIONAL), -- DC call c, %
  opi 2 .None OPCODE_FLAG_INVALID, -- DD (invalid)
  opi 1 .Undefined 0, -- DE sbc a, %
  opi 0 .None (OPCODE_FLAG_JUMP ||| OPCODE_FLAG_CALL), -- DF rst $18
  opi 1 .DataHram OPCODE_FLAG_WRITE_MEM, -- E0 ldh [%], a
  opi 0 .None 0, -- E1 pop hl
  opi 0 .None OPCODE_FLAG_WRITE_MEM, -- E2 ld [$FF00+c], a
  opi 0 .None OPCODE_FLAG_INVALID, -- E3 (invalid)
  opi 0 .None OPCODE_FLAG_INVALID, -- E4 (invalid)
  opi 0 .None 0, -- E5 push hl
  opi 1 .Undefined 0, -- E6 and a, %
  opi 0 .None (OPCODE_FLAG_JUMP ||| OPCODE_FLAG_CALL), -- E7 rst $20
  opi 1 .Undefined 0, -- E8 add sp, %
  opi 0 .None OPCODE_FLAG_JUMP, -- E9 jp hl
  opi 2 .Data OPCODE_FLAG_WRITE_MEM, -- EA ld [%], a
  opi 0 .None OPCODE_FLAG_INVALID, -- EB (invalid)
  opi 2 .None OPCODE_FLAG_INVALID, -- EC (invalid)
  opi 2 .None OPCODE_FLAG_INVALID, -- ED (invalid)
  opi 1 .Undefined 0, -- EE xor a, %
  opi 0 .None (OPCODE_FLAG_JUMP ||| OPCODE_FLAG_CALL), -- EF rst $28
  opi 1 .DataHram OPCODE_FLAG_READ_MEM, -- F0 ldh a, [%]
  opi 0 .None 0, -- F1 pop af
  opi 0 .None OPCODE_FLAG_READ_MEM, -- F2 ld a, [$FF00+c]
  opi 0 .None 0, -- F3 di
  opi 0 .None OPCODE_FLAG_INVALID, -- F4 (invalid)
  opi 0 .None 0, -- F5 push af
  opi 1 .Undefined 0, -- F6 or a, %
  opi 0 .None (OPCODE_FLAG_JUMP ||| OPCODE_FLAG_CALL), -- F7 rst $30
  opi 1 .Undefined 0, -- F8 ld hl, sp+%
  opi 0 .None 0, -- F9 ld sp, hl
  opi 2 .Data OPCODE_FLAG_READ_MEM, -- FA ld a, [%]
  opi 0 .None 0, -- FB ei
  opi 2 .None OPCODE_FLAG_INVALID, -- FC (invalid)
  opi 2 .None OPCODE_FLAG_INVALID, -- FD (invalid)
  opi 1 .Undefined 0, -- FE cp a, %
  opi 0 .None (OPCODE_FLAG_JUMP ||| OPCODE_FLAG_CALL) -- FF rst $38
]

def BITOPS_INFO : List OpcodeInfo := [
  opi 1 .LongOpcode 0, -- 00 rlc b
  opi 1 .LongOpcode 0, -- 01 rlc c
  opi 1 .LongOpcode 0, -- 02 rlc d
  opi 1 .LongOpcode 0, -- 03 rlc e
  opi 1 .LongOpcode 0, -- 04 rlc h
  opi 1 .LongOpcode 0, -- 05 rlc l
  opi 1 .LongOpcode (OPCODE_FLAG_WRITE_MEM ||| OPCODE_FLAG_READ_MEM), -- 06 rlc [hl]
  opi 1 .LongOpcode 0, -- 07 rlc a
  opi 1 .LongOpcode 0, -- 08 rrc b
  opi 1 .LongOpcode 0, -- 09 rrc c
  opi 1 .LongOpcode 0, -- 0A rrc d
  opi 1 .LongOpcode 0, -- 0B rrc e
  opi 1 .LongOpcode 0, -- 0C rrc h
  opi 1 .LongOpcode 0, -- 0D rrc l
  opi 1 .LongOpcode (OPCODE_FLAG_WRITE_MEM ||| OPCODE_FLAG_READ_MEM), -- 0E rrc [hl]
  opi 1 .LongOpcode 0, -- 0F rrc a
  opi 1 .LongOpcode 0, -- 10 rl b
  opi 1 .LongOpcode 0, -- 11 rl c
  opi 1 .LongOpcode 0, -- 12 rl d
  opi 1 .LongOpcode 0, -- 13 rl e
  opi 1 .LongOpcode 0, -- 14 rl h
  opi 1 .LongOpcode 0, -- 15 rl l
  opi 1 .LongOpcode (OPCODE_FLAG_WRITE_MEM ||| OPCODE_FLAG_READ_MEM), -- 16 rl [hl]
  opi 1 .LongOpcode 0, -- 17 rl a
  opi 1 .LongOpcode 0, -- 18 rr b
  opi 1 .LongOpcode 0, -- 19 rr c
  opi 1 .LongOpcode 0, -- 1A rr d
  opi 1 .LongOpcode 0, -- 1B rr e
  opi 1 .LongOpcode 0, -- 1C rr h
  opi 1 .LongOpcode 0, -- 1D rr l
  opi 1 .LongOpcode (OPCODE_FLAG_WRITE_MEM ||| OPCODE_FLAG_READ_MEM), -- 1E rr [hl]
  opi 1 .LongOpcode 0, -- 1F rr a
  opi 1 .LongOpcode 0, -- 20 sla b
  opi 1 .LongOpcode 0, -- 21 sla c
  opi 1 .LongOpcode 0, -- 22 sla d
  opi 1 .LongOpcode 0, -- 23 sla e
  opi 1 .LongOpcode 0, -- 24 sla h
  opi 1 .LongOpcode 0, -- 25 sla l
  opi 1 .LongOpcode (OPCODE_FLAG_WRITE_MEM ||| OPCODE_FLAG_READ_MEM), -- 26 sla [hl]
  opi 1 .LongOpcode 0, -- 27 sla a
  opi 1 .LongOpcode 0, -- 28 sra b
  opi 1 .LongOpcode 0, -- 29 sra c
  opi 1 .LongOpcode 0, -- 2A sra d
  opi 1 .LongOpcode 0, -- 2B sra e
  opi 1 .LongOpcode 0, -- 2C sra h
  opi 1 .LongOpcode 0, -- 2D sra l
  opi 1 .LongOpcode (OPCODE_FLAG_WRITE_MEM ||| OPCODE_FLAG_READ_MEM), -- 2E sra [hl]
  opi 1 .LongOpcode 0, -- 2F sra a
  opi 1 .LongOpcode 0, -- 30 swap b
  opi 1 .LongOpcode 0, -- 31 swap c
  opi 1 .LongOpcode 0, -- 32 swap d
  opi 1 .LongOpcode 0, -- 33 swap e
  opi 1 .LongOpcode 0, -- 34 swap h
  opi 1 .LongOpcode 0, -- 35 swap l
  opi 1 .LongOpcode (OPCODE_FLAG_WRITE_MEM ||| OPCODE_FLAG_READ_MEM), -- 36 swap [hl]
  opi 1 .LongOpcode 0, -- 37 swap a
  opi 1 .LongOpcode 0, -- 38 srl b
  opi 1 .LongOpcode 0, -- 39 srl c
  opi 1 .LongOpcode 0, -- 3A srl d
  opi 1 .LongOpcode 0, -- 3B srl e
  opi 1 .LongOpcode 0, -- 3C srl h
  opi 1 .LongOpcode 0, -- 3D srl l
  opi 1 .LongOpcode (OPCODE_FLAG_WRITE_MEM ||| OPCODE_FLAG_READ_MEM), -- 3E srl [hl]
  opi 1 .LongOpcode 0, -- 3F srl a
  opi 1 .LongOpcode 0, -- 40 bit 0, b
  opi 1 .LongOpcode 0, -- 41 bit 0, c
  opi 1 .LongOpcode 0, -- 42 bit 0, d
  opi 1 .LongOpcode 0, -- 43 bit 0, e
  opi 1 .LongOpcode 0, -- 44 bit 0, h
  opi 1 .LongOpcode 0, -- 45 bit 0, l
  opi 1 .LongOpcode OPCODE_FLAG_READ_MEM, -- 46 bit 0, [hl]
  opi 1 .LongOpcode 0, -- 47 bit 0, a
  opi 1 .LongOpcode 0, -- 48 bit 1, b
  opi 1 .LongOpcode 0, -- 49 bit 1, c
  opi 1 .LongOpcode 0, -- 4A bit 1, d
  opi 1 .LongOpcode 0, -- 4B bit 1, e
  opi 1 .LongOpcode 0, -- 4C bit 1, h
  opi 1 .LongOpcode 0, -- 4D bit 1, l
  opi 1 .LongOpcode OPCODE_FLAG_READ_MEM, -- 4E bit 1, [hl]
  opi 1 .LongOpcode 0, -- 4F bit 1, a
  opi 1 .LongOpcode 0, -- 50 bit 2, b
  opi 1 .LongOpcode 0, -- 51 bit 2, c
  opi 1 .LongOpcode 0, -- 52 bit 2, d
  opi 1 .LongOpcode 0, -- 53 bit 2, e
  opi 1 .LongOpcode 0, -- 54 bit 2, h
  opi 1 .LongOpcode 0, -- 55 bit 2, l
  opi 1 .LongOpcode OPCODE_FLAG_READ_MEM, -- 56 bit 2, [hl]
  opi 1 .LongOpcode 0, -- 57 bit 2, a
  opi 1 .LongOpcode 0, -- 58 bit 3, b
  opi 1 .LongOpcode 0, -- 59 bit 3, c
  opi 1 .LongOpcode 0, -- 5A bit 3, d
  opi 1 .LongOpcode 0, -- 5B bit 3, e
  opi 1 .LongOpcode 0, -- 5C bit 3, h
  opi 1 .LongOpcode 0, -- 5D bit 3, l
  opi 1 .LongOpcode OPCODE_FLAG_READ_MEM, -- 5E bit 3, [hl]
  opi 1 .LongOpcode 0, -- 5F bit 3, a
  opi 1 .LongOpcode 0, -- 60 bit 4, b
  opi 1 .LongOpcode 0, -- 61 bit 4, c
  opi 1 .LongOpcode 0, -- 62 bit 4, d
  opi 1 .LongOpcode 0, -- 63 bit 4, e
  opi 1 .LongOpcode 0, -- 64 bit 4, h
  opi 1 .LongOpcode 0, -- 65 bit 4, l
  opi 1 .LongOpcode OPCODE_FLAG_READ_MEM, -- 66 bit 4, [hl]
  opi 1 .LongOpcode 0, -- 67 bit 4, a
  opi 1 .LongOpcode 0, -- 68 bit 5, b
  opi 1 .LongOpcode 0, -- 69 bit 5, c
  opi 1 .LongOpcode 0, -- 6A bit 5, d
  opi 1 .LongOpcode 0, -- 6B bit 5, e
  opi 1 .LongOpcode 0, -- 6C bit 5, h
  opi 1 .LongOpcode 0, -- 6D bit 5, l
  opi 1 .LongOpcode OPCODE_FLAG_READ_MEM, -- 6E bit 5, [hl]
  opi 1 .LongOpcode 0, -- 6F bit 5, a
  opi 1 .LongOpcode 0, -- 70 bit 6, b
  opi 1 .LongOpcode 0, -- 71 bit 6, c
  opi 1 .LongOpcode 0, -- 72 bit 6, d
  opi 1 .LongOpcode 0, -- 73 bit 6, e
  opi 1 .LongOpcode 0, -- 74 bit 6, h
  opi 1 .LongOpcode 0, -- 75 bit 6, l
  opi 1 .LongOpcode OPCODE_FLAG_READ_MEM, -- 76 bit 6, [hl]
  opi 1 .LongOpcode 0, -- 77 bit 6, a
  opi 1 .LongOpcode 0, -- 78 bit 7, b
  opi 1 .LongOpcode 0, -- 79 bit 7, c
  opi 1 .LongOpcode 0, -- 7A bit 7, d
  opi 1 .LongOpcode 0, -- 7B bit 7, e
  opi 1 .LongOpcode 0, -- 7C bit 7, h
  opi 1 .LongOpcode 0, -- 7D bit 7, l
  opi 1 .LongOpcode OPCODE_FLAG_READ_MEM, -- 7E bit 7, [hl]
  opi 1 .LongOpcode 0, -- 7F bit 7, a
  opi 1 .LongOpcode 0, -- 80 res 0, b
  opi 1 .LongOpcode 0, -- 81 res 0, c
  opi 1 .LongOpcode 0, -- 82 res 0, d
  opi 1 .LongOpcode 0, -- 83 res 0, e
  opi 1 .LongOpcode 0, -- 84 res 0, h
  opi 1 .LongOpcode 0, -- 85 res 0, l
  opi 1 .LongOpcode OPCODE_FLAG_WRITE_MEM, -- 86 res 0, [hl]
  opi 1 .LongOpcode 0, -- 87 res 0, a
  opi 1 .LongOpcode 0, -- 88 res 1, b
  opi 1 .LongOpcode 0, -- 89 res 1, c
  opi 1 .LongOpcode 0, -- 8A res 1, d
  opi 1 .LongOpcode 0, -- 8B res 1, e
  opi 1 .LongOpcode 0, -- 8C res 1, h
  opi 1 .LongOpcode 0, -- 8D res 1, l
  opi 1 .LongOpcode OPCODE_FLAG_WRITE_MEM, -- 8E res 1, [hl]
  opi 1 .LongOpcode 0, -- 8F res 1, a
  opi 1 .LongOpcode 0, -- 90 res 2, b
  opi 1 .LongOpcode 0, -- 91 res 2, c
  opi 1 .LongOpcode 0, -- 92 res 2, d
  opi 1 .LongOpcode 0, -- 93 res 2, e
  opi 1 .LongOpcode 0, -- 94 res 2, h
  opi 1 .LongOpcode 0, -- 95 res 2, l
  opi 1 .LongOpcode OPCODE_FLAG_WRITE_MEM, -- 96 res 2, [hl]
  opi 1 .LongOpcode 0, -- 97 res 2, a
  opi 1 .LongOpcode 0, -- 98 res 3, b
  opi 1 .LongOpcode 0, -- 99 res 3, c
  opi 1 .LongOpcode 0, -- 9A res 3, d
  opi 1 .LongOpcode 0, -- 9B res 3, e
  opi 1 .LongOpcode 0, -- 9C res 3, h
  opi 1 .LongOpcode 0, -- 9D res 3, l
  opi 1 .LongOpcode OPCODE_FLAG_WRITE_MEM, -- 9E res 3, [hl]
  opi 1 .LongOpcode 0, -- 9F res 3, a
  opi 1 .LongOpcode 0, -- A0 res 4, b
  opi 1 .LongOpcode 0, -- A1 res 4, c
  opi 1 .LongOpcode 0, -- A2 res 4, d
  opi 1 .LongOpcode 0, -- A3 res 4, e
  opi 1 .LongOpcode 0, -- A4 res 4, h
  opi 1 .LongOpcode 0, -- A5 res 4, l
  opi 1 .LongOpcode OPCODE_FLAG_WRITE_MEM, -- A6 res 4, [hl]
  opi 1 .LongOpcode 0, -- A7 res 4, a
  opi 1 .LongOpcode 0, -- A8 res 5, b
  opi 1 .LongOpcode 0, -- A9 res 5, c
  opi 1 .LongOpcode 0, -- AA res 5, d
  opi 1 .LongOpcode 0, -- AB res 5, e
  opi 1 .LongOpcode 0, -- AC res 5, h
  opi 1 .LongOpcode 0, -- AD res 5, l
  opi 1 .LongOpcode OPCODE_FLAG_WRITE_MEM, -- AE res 5, [hl]
  opi 1 .LongOpcode 0, -- AF res 5, a
  opi 1 .LongOpcode 0, -- B0 res 6, b
  opi 1 .LongOpcode 0, -- B1 res 6, c
  opi 1 .LongOpcode 0, -- B2 res 6, d
  opi 1 .LongOpcode 0, -- B3 res 6, e
  opi 1 .LongOpcode 0, -- B4 res 6, h
  opi 1 .LongOpcode 0, -- B5 res 6, l
  opi 1 .LongOpcode OPCODE_FLAG_WRITE_MEM, -- B6 res 6, [hl]
  opi 1 .LongOpcode 0, -- B7 res 6, a
  opi 1 .LongOpcode 0, -- B8 res 7, b
  opi 1 .LongOpcode 0, -- B9 res 7, c
  opi 1 .LongOpcode 0, -- BA res 7, d
  opi 1 .LongOpcode 0, -- BB res 7, e
  opi 1 .LongOpcode 0, -- BC res 7, h
  opi 1 .LongOpcode 0, -- BD res 7, l
  opi 1 .LongOpcode OPCODE_FLAG_WRITE_MEM, -- BE res 7, [hl]
  opi 1 .LongOpcode 0, -- BF res 7, a
  opi 1 .LongOpcode 0, -- C0 set 0, b
  opi 1 .LongOpcode 0, -- C1 set 0, c
  opi 1 .LongOpcode 0, -- C2 set 0, d
  opi 1 .LongOpcode 0, -- C3 set 0, e
  opi 1 .LongOpcode 0, -- C4 set 0, h
  opi 1 .LongOpcode 0, -- C5 set 0, l
  opi 1 .LongOpcode OPCODE_FLAG_WRITE_MEM, -- C6 set 0, [hl]
  opi 1 .LongOpcode 0, -- C7 set 0, a
  opi 1 .LongOpcode 0, -- C8 set 1, b
  opi 1 .LongOpcode 0, -- C9 set 1, c
  opi 1 .LongOpcode 0, -- CA set 1, d
  opi 1 .LongOpcode 0, -- CB set 1, e
  opi 1 .LongOpcode 0, -- CC set 1, h
  opi 1 .LongOpcode 0, -- CD set 1, l
  opi 1 .LongOpcode OPCODE_FLAG_WRITE_MEM, -- CE set 1, [hl]
  opi 1 .LongOpcode 0, -- CF set 1, a
  opi 1 .LongOpcode 0, -- D0 set 2, b
  opi 1 .LongOpcode 0, -- D1 set 2, c
  opi 1 .LongOpcode 0, -- D2 set 2, d
  opi 1 .LongOpcode 0, -- D3 set 2, e
  opi 1 .LongOpcode 0, -- D4 set 2, h
  opi 1 .LongOpcode 0, -- D5 set 2, l
  opi 1 .LongOpcode OPCODE_FLAG_WRITE_MEM, -- D6 set 2, [hl]
  opi 1 .LongOpcode 0, -- D7 set 2, a
  opi 1 .LongOpcode 0, -- D8 set 3, b
  opi 1 .LongOpcode 0, -- D9 set 3, c
  opi 1 .LongOpcode 0, -- DA set 3, d
  opi 1 .LongOpcode 0, -- DB set 3, e
  opi 1 .LongOpcode 0, -- DC set 3, h
  opi 1 .LongOpcode 0, -- DD set 3, l
  opi 1 .LongOpcode OPCODE_FLAG_WRITE_MEM, -- DE set 3, [hl]
  opi 1 .LongOpcode 0, -- DF set 3, a
  opi 1 .LongOpcode 0, -- E0 set 4, b
  opi 1 .LongOpcode 0, -- E1 set 4, c
  opi 1 .LongOpcode 0, -- E2 set 4, d
  opi 1 .LongOpcode 0, -- E3 set 4, e
  opi 1 .LongOpcode 0, -- E4 set 4, h
  opi 1 .LongOpcode 0, -- E5 set 4, l
  opi 1 .LongOpcode OPCODE_FLAG_WRITE_MEM, -- E6 set 4, [hl]
  opi 1 .LongOpcode 0, -- E7 set 4, a
  opi 1 .LongOpcode 0, -- E8 set 5, b
  opi 1 .LongOpcode 0, -- E9 set 5, c
  opi 1 .LongOpcode 0, -- EA set 5, d
  opi 1 .LongOpcode 0, -- EB set 5, e
  opi 1 .LongOpcode 0, -- EC set 5, h
  opi 1 .LongOpcode 0, -- ED set 5, l
  opi 1 .LongOpcode OPCODE_FLAG_WRITE_MEM, -- EE set 5, [hl]
  opi 1 .LongOpcode 0, -- EF set 5, a
  opi 1 .LongOpcode 0, -- F0 set 6, b
  opi 1 .LongOpcode 0, -- F1 set 6, c
  opi 1 .LongOpcode 0, -- F2 set 6, d
  opi 1 .LongOpcode 0, -- F3 set 6, e
  opi 1 .LongOpcode 0, -- F4 set 6, h
  opi 1 .LongOpcode 0, -- F5 set 6, l
  opi 1 .LongOpcode OPCODE_FLAG_WRITE_MEM, -- F6 set 6, [hl]
  opi 1 .LongOpcode 0, -- F7 set 6, a
  opi 1 .LongOpcode 0, -- F8 set 7, b
  opi 1 .LongOpcode 0, -- F9 set 7, c
  opi 1 .LongOpcode 0, -- FA set 7, d
  opi 1 .LongOpcode 0, -- FB set 7, e
  opi 1 .LongOpcode 0, -- FC set 7, h
  opi 1 .LongOpcode 0, -- FD set 7, l
  opi 1 .LongOpcode OPCODE_FLAG_WRITE_MEM, -- FE set 7, [hl]
  opi 1 .LongOpcode 0 -- FF set 7, a
]

/-- Indexing `OPCODE_INFO[n]`.  In Rust the index is a `u8`, so it is
always in range; the default entry (for out-of-range `Nat` indices that a
faithful `u8` can never produce) is marked invalid. -/
def OPCODE_INFO_at (n : Nat) : OpcodeInfo := OPCODE_INFO.getD n (opi 0 .None OPCODE_FLAG_INVALID)

/-- Indexing `BITOPS_INFO[n]`, with the same out-of-range convention. -/
def BITOPS_INFO_at (n : Nat) : OpcodeInfo := BITOPS_INFO.getD n (opi 0 .None OPCODE_FLAG_INVALID)

/-! ## `src/gbasm.rs`: instructions and the decoder -/

/-- `Instruction { opcode: u8, operand: u16 }`. -/
structure Instruction where
  opcode : Nat
  operand : Nat
deriving DecidableEq, Repr

/-- `Instruction::info`: the `0xCB` prefix selects the bit-ops table,
indexed by the operand byte. -/
def Instruction.info (i : Instruction) : OpcodeInfo :=
  if i.opcode = OPCODE_BITOPS then BITOPS_INFO_at i.operand else OPCODE_INFO_at i.opcode

def Instruction.is_valid (i : Instruction) : Bool :=
  i.info.flags &&& OPCODE_FLAG_INVALID = 0

def Instruction.encoded_len (i : Instruction) : Nat :=
  i.info.operand_len + 1

/-- `Instruction::get_jump_target` from `src/gbasm.rs`. -/
def Instruction.get_jump_target (i : Instruction) : Option Nat :=
  if i.opcode = OPCODE_RST_00 then some 0x0000
  else if i.opcode = OPCODE_RST_08 then some 0x0008
  else if i.opcode = OPCODE_RST_10 then some 0x0010
  else if i.opcode = OPCODE_RST_18 then some 0x0018
  else if i.opcode = OPCODE_RST_20 then some 0x0020
  else if i.opcode = OPCODE_RST_28 then some 0x0028
  else if i.opcode = OPCODE_RST_30 then some 0x0030
  else if i.opcode = OPCODE_RST_38 then some 0x0038
  else if i.info.flags &&& OPCODE_FLAG_JUMP ≠ 0 ∧ i.info.operand_kind ≠ OperandKind.None then
    some i.operand
  else none

inductive DecodeError where
  | SliceTooSmall
  | InvalidOpcode
deriving DecidableEq, Repr

/-- `DecodeResult = Result<Instruction, DecodeError>`. -/
inductive DecodeResult where
  | ok (ins : Instruction)
  | error (e : DecodeError)
deriving DecidableEq, Repr

/-- Two's-complement reading of a byte (`as i8` on a value `< 0x100`). -/
def signExtend8 (b : Nat) : Int :=
  if b < 0x80 then (b : Int) else (b : Int) - 0x100

/-- The little-endian operand read loop of `decode`:
`for i in 0..len-1 { operand += (slice[1+i] as u16) << i*8 }`. -/
def read_operand (slice : List Nat) (len : Nat) : Nat :=
  (List.range (len - 1)).foldl (fun acc i => acc + (slice.getD (1 + i) 0) <<< (i * 8)) 0

/-- The operand fix-up at the end of `decode`.  `CodeRelative` mirrors
`((addr as i32) + 2 + (operand as i8) as i32) as u16` (the `u16` cast is a
reduction mod `2^16`, embedded via `Int.emod`, which is non-negative);
`DataHram` mirrors `0xFF00 + operand`. -/
def fixup (addr : Nat) (i : Instruction) : Instruction :=
  if i.info.operand_kind = OperandKind.CodeRelative then
    Instruction.mk i.opcode ((((addr : Int) + 2 + signExtend8 (i.operand % 0x100)) % 0x10000).toNat)
  else if i.info.operand_kind = OperandKind.DataHram then
    Instruction.mk i.opcode (0xFF00 + i.operand)
  else i

/-- `decode(addr, slice)` from `src/gbasm.rs`. -/
def decode (addr : Nat) (slice : List Nat) : DecodeResult :=
  if slice.length = 0 then .error .SliceTooSmall
  else
    let opcode := slice.getD 0 0
    if (Instruction.mk opcode 0).is_valid = false then .error .InvalidOpcode
    else
      let len := (Instruction.mk opcode 0).encoded_len
      if slice.length < len then .error .SliceTooSmall
      else .ok (fixup addr (Instruction.mk opcode (read_operand slice len)))

/-- `DecodeSliceIter<XAddr>` from `src/gbasm.rs`, at the instantiation
`T = XAddr` used by the analysis (the generic `T: Copy + AddAssign<u16> +
Into<u16>` is specialised; `Into<u16>` is the `addr` projection). -/
structure DecodeSliceIter where
  addr : XAddr
  slice : List Nat
deriving DecidableEq, Repr

/-- `decode_slice(addr, slice)`. -/
def decode_slice (addr : XAddr) (slice : List Nat) : DecodeSliceIter :=
  DecodeSliceIter.mk addr slice

/-- One `Iterator::next` step of `DecodeSliceIter`: `None` when the slice
is empty; otherwise decode at the current address, and advance the address
and slice by `encoded_len` only when the decode succeeded. -/
def DecodeSliceIter.next (s : DecodeSliceIter) : Option ((XAddr × DecodeResult) × DecodeSliceIter) :=
  if s.slice.length = 0 then none
  else
    match decode s.addr.addr s.slice with
    | .ok ins =>
        some ((s.addr, .ok ins),
          DecodeSliceIter.mk (s.addr.addU16 ins.encoded_len) (s.slice.drop ins.encoded_len))
    | .error e => some ((s.addr, .error e), s)

/-- The list of the first `fuel` items yielded by a `DecodeSliceIter`. -/
def DecodeSliceIter.run (fuel : Nat) (s : DecodeSliceIter) : List (XAddr × DecodeResult) :=
  match fuel with
  | 0 => []
  | fuel + 1 =>
      match s.next with
      | none => []
      | some (item, s') => item :: DecodeSliceIter.run fuel s'

/-! ## `src/tags.rs` -/

/-- The ten tag kinds of the spec's data model (§3, "Tag"). -/
inductive TagKind where
  | Name
  | Code
  | NoReturn
  | RomBank
  | RamBank
  | SrmBank
  | OperandAddr
  | JumpTable
  | DontFollowCall
  | Comment
deriving DecidableEq, Repr

namespace TagsRs

/-- The `Tag` enum exactly as declared in `src/tags.rs` (seven
constructors).  Note that `src/anal.rs` pattern-matches
`tags::Tag::DontFollowCall` and `src/main.rs` pattern-matches
`tags::Tag::JumpTable` and `tags::Tag::Comment`, none of which this
declaration provides. -/
inductive Tag where
  | Name (s : String)
  | Code
  | NoReturn
  | RomBank (bank : Nat)
  | RamBank (bank : Nat)
  | SrmBank (bank : Nat)
  | OperandAddr
deriving DecidableEq, Repr

/-- The spec tag kind each constructor of `src/tags.rs`'s `Tag` realises. -/
def Tag.kind : Tag → TagKind
  | .Name _ => .Name
  | .Code => .Code
  | .NoReturn => .NoReturn
  | .RomBank _ => .RomBank
  | .RamBank _ => .RamBank
  | .SrmBank _ => .SrmBank
  | .OperandAddr => .OperandAddr

end TagsRs

/-- Modelled from the spec: the core's tag data model (spec §3), i.e. the
`Tag` type that `src/anal.rs` and `src/main.rs` actually pattern-match.
`src/tags.rs` declares only the first seven constructors; the
`JumpTable(n)`, `DontFollowCall` and `Comment(string)` constructors —
referenced by `anal.rs` (`Tag::DontFollowCall`) and `main.rs`
(`Tag::JumpTable`, `Tag::Comment`) but missing from the declaration — are
taken from the spec's table of tag kinds. -/
inductive Tag where
  | Name (s : String)
  | Code
  | NoReturn
  | RomBank (bank : Nat)
  | RamBank (bank : Nat)
  | SrmBank (bank : Nat)
  | OperandAddr
  | JumpTable (num_entries : Nat)
  | DontFollowCall
  | Comment (s : String)
deriving DecidableEq, Repr

def Tag.isNoReturn : Tag → Bool
  | .NoReturn => true
  | _ => false

def Tag.isDontFollowCall : Tag → Bool
  | .DontFollowCall => true
  | _ => false

/-- `get_tags_at(dict, xa)` from `src/tags.rs`: the equal-range of pairs
whose key is `xa`.  On a dict sorted by key (the invariant established by
`parse_tags`), `equal_range_by_key` returns exactly the contiguous run of
pairs with key `= xa`, which as a list is the filter below. -/
def get_tags_at (dict : List (XAddr × Tag)) (xa : XAddr) : List (XAddr × Tag) :=
  dict.filter (fun xt => xt.1 = xa)

/-! ## `src/anal.rs`: ROM view -/

structure RomInfo where
  big_rom : Bool
  cgb_ram : Bool
  sram_count : Nat
deriving DecidableEq, Repr

structure AnalInfo where
  rom : List Nat
  rom_info : RomInfo
  tags : List (XAddr × Tag)
deriving DecidableEq, Repr

inductive RomSliceError where
  | NonRomAddr
  | BankedRomAddr
  | NonBankedHiRomAddr
  | BankTooHigh
deriving DecidableEq, Repr

/-- Rust slice indexing `rom[a..b]`: defined when `a ≤ b ≤ rom.len()`,
a panic (`none`) otherwise. -/
def sliceIdx (rom : List Nat) (a b : Nat) : Option (List Nat) :=
  if a ≤ b ∧ b ≤ rom.length then some ((rom.drop a).take (b - a)) else none

/-- `AnalInfo::rom_slice(xa, len)` from `src/anal.rs`.  The outer `Option`
is a slice-indexing panic (impossible for the in-range requests the
analysis makes); the `Except` layer is the Rust `Result`. -/
def AnalInfo.rom_slice (info : AnalInfo) (xa : XAddr) (len : Nat) :
    Option (Except RomSliceError (List Nat)) :=
  if xa.addr ≤ 0x3FFF then
    if xa.bank ≠ 0 then some (.error .BankedRomAddr)
    else if info.rom_info.big_rom then
      (sliceIdx info.rom xa.addr (min (xa.addr + len) 0x4000)).map .ok
    else
      (sliceIdx info.rom xa.addr (min (xa.addr + len) info.rom.length)).map .ok
  else if xa.addr ≤ 0x7FFF then
    if xa.bank = 0 then
      if info.rom_info.big_rom then some (.error .NonBankedHiRomAddr)
      else (sliceIdx info.rom xa.addr (min (xa.addr + len) info.rom.length)).map .ok
    else
      let bnk := 0x4000 * xa.bank
      let off := xa.addr - 0x4000
      let e := min (off + len) 0x4000
      if info.rom_info.big_rom = false then some (.error .BankedRomAddr)
      else if bnk + e > info.rom.length then some (.error .BankTooHigh)
      else (sliceIdx info.rom (bnk + off) (bnk + e)).map .ok
  else some (.error .NonRomAddr)

/-- `AnalInfo::rom_bank_count`. -/
def AnalInfo.rom_bank_count (info : AnalInfo) : Nat :=
  match info.rom_info.big_rom with
  | true => (info.rom.length + 0x3FFF) / 0x4000
  | false => 1

/-- `AnalInfo::rom_bank_block(bank)`.  The Rust asserts (`bank <
rom_bank_count()`, and `bank == 0` for small ROMs) are caller contracts;
the only caller, `cut_blocks`, satisfies them by construction.  `bank as
u16` is the 16-bit truncation. -/
def AnalInfo.rom_bank_block (info : AnalInfo) (bank : Nat) : XAddr × Nat :=
  if info.rom_info.big_rom then
    (XAddr.mk (bank % 0x10000) (if bank = 0 then 0x0000 else 0x4000), 0x4000)
  else
    (XAddr.mk 0 0, info.rom.length)

/-! ## `src/anal.rs`: decoding emulator -/

/-- `AnalEmu` from `src/anal.rs`: the decoder iterator plus the three
optional bank registers (and the borrowed `AnalInfo`). -/
structure AnalEmu where
  info : AnalInfo
  decoder : DecodeSliceIter
  romb : Option Nat
  ramb : Option Nat
  srmb : Option Nat
deriving DecidableEq, Repr

/-- `AnalEmu::with_bound(info, xa, len)`: slices the ROM (panicking —
`none` — if `rom_slice` fails) and initialises `romb` to `Some(xa.bank)`
exactly when `xa.addr` lies in the switched window `0x4000..=0x7FFF`. -/
def AnalEmu.with_bound (info : AnalInfo) (xa : XAddr) (len : Nat) : Option AnalEmu :=
  match info.rom_slice xa len with
  | some (.ok slice) =>
      some (AnalEmu.mk info (decode_slice xa slice)
        (if 0x4000 ≤ xa.addr ∧ xa.addr ≤ 0x7FFF then some xa.bank else none)
        none none)
  | _ => none

/-- `AnalEmu::new(info, xa)`. -/
def AnalEmu.new (info : AnalInfo) (xa : XAddr) : Option AnalEmu :=
  AnalEmu.with_bound info xa 0x8000

/-- `AnalEmu::expand_addr(addr)` from `src/anal.rs`. -/
def AnalEmu.expand_addr (e : AnalEmu) (addr : Nat) : Option XAddr :=
  if 0x4000 ≤ addr ∧ addr ≤ 0x7FFF then
    if e.info.rom_info.big_rom then e.romb.map (fun b => XAddr.mk b addr)
    else some (XAddr.mk 0 addr)
  else if 0xA000 ≤ addr ∧ addr ≤ 0xBFFF then
    e.srmb.map (fun b => XAddr.mk b addr)
  else if 0xD000 ≤ addr ∧ addr ≤ 0xDFFF then
    if e.info.rom_info.cgb_ram then e.ramb.map (fun b => XAddr.mk b addr)
    else some (XAddr.mk 0 addr)
  else some (XAddr.mk 0 addr)

/-- The tag-application loop at the top of `<AnalEmu as Iterator>::next`:
`RomBank`/`RamBank`/`SrmBank` tags overwrite the corresponding register;
all other tags are ignored. -/
def applyBankTag (acc : AnalEmu) (xt : XAddr × Tag) : AnalEmu :=
  match xt.2 with
  | .RomBank bank => { acc with romb := some bank }
  | .RamBank bank => { acc with ramb := some bank }
  | .SrmBank bank => { acc with srmb := some bank }
  | _ => acc

/-- The tag-application loop, folded over the equal-range of tags. -/
def applyBankTags (ts : List (XAddr × Tag)) (e : AnalEmu) : AnalEmu :=
  ts.foldl applyBankTag e

/-- One `Iterator::next` step of `AnalEmu`: pull the next item from the
decoder and, before yielding it, apply the bank tags found at its
address. -/
def AnalEmu.next (e : AnalEmu) : Option ((XAddr × DecodeResult) × AnalEmu) :=
  match e.decoder.next with
  | none => none
  | some ((xa, ins), d') =>
      some ((xa, ins), applyBankTags (get_tags_at e.info.tags xa) { e with decoder := d' })

/-- The list of the first `fuel` items yielded by an `AnalEmu`. -/
def AnalEmu.run (fuel : Nat) (e : AnalEmu) : List (XAddr × DecodeResult) :=
  match fuel with
  | 0 => []
  | fuel + 1 =>
      match e.next with
      | none => []
      | some (item, e') => item :: AnalEmu.run fuel e'

/-! ## `src/util.rs`: sorted_merge -/

/-- The main loop of `sorted_merge` (with the trailing copy of the
remaining side), reached when both inputs are non-empty: compare heads
with `Ord::lt`, push the smaller (ties push from `b`), and when one side
is exhausted append the rest of the other. -/
def sorted_merge_go [LinearOrder α] : List α → List α → List α
  | [], bs => bs
  | as, [] => as
  | a :: as, b :: bs =>
      if a < b then a :: sorted_merge_go as (b :: bs)
      else b :: sorted_merge_go (a :: as) bs
termination_by as bs => as.length + bs.length

/-- `sorted_merge(a, b)` from `src/util.rs`, with its two early returns
for an empty input. -/
def sorted_merge [LinearOrder α] (a b : List α) : List α :=
  if a = [] then b
  else if b = [] then a
  else sorted_merge_go a b

/-! ## `src/anal.rs`: discovery engine -/

/-- The loop body of `scan_head_block`: iterate the emulator; on a decode
error return `none` ("not code"); on an instruction, add its encoded
length to `offset` and stop — returning `(xa, offset)` — when it has the
`JUMP` flag; when the iterator is exhausted return `(xa, max_len)`.  Each
iteration consumes at least one byte of the decoder slice, so the caller's
fuel of `slice.length + 1` makes fuel exhaustion (mapped to the
iterator-exhausted result) unreachable. -/
def scanHeadLoop : Nat → AnalEmu → XAddr → Nat → Nat → Option (XAddr × Nat)
  | 0, _, xa, _, max_len => some (xa, max_len)
  | fuel + 1, emu, xa, offset, max_len =>
      match emu.next with
      | none => some (xa, max_len)
      | some ((_, .error _), _) => none
      | some ((_, .ok ins), emu') =>
          let offset' := offset + ins.encoded_len
          if ins.info.flags &&& OPCODE_FLAG_JUMP ≠ 0 then some (xa, offset')
          else scanHeadLoop fuel emu' xa offset' max_len

/-- `scan_head_block(info, xa, max_len)` from `src/anal.rs`.  The outer
`Option` is the `with_bound` panic; the inner one is the Rust return
value. -/
def scan_head_block (info : AnalInfo) (xa : XAddr) (max_len : Nat) :
    Option (Option (XAddr × Nat)) :=
  match AnalEmu.with_bound info xa max_len with
  | none => none
  | some emu => some (scanHeadLoop (emu.decoder.slice.length + 1) emu xa 0 max_len)

/-- The "scan for unconditional end instruction" loop inside
`search_for_code`: walk the freshly bounded emulator while it yields `Ok`
instructions; report `true` (break the enclosing cut scan) on an
unconditional non-call jump, or on a call whose resolved target carries a
`NoReturn` tag.  Fuel as in `scanHeadLoop`. -/
def endScanLoop : Nat → AnalEmu → Bool
  | 0, _ => false
  | fuel + 1, emu =>
      match emu.next with
      | none => false
      | some ((_, .error _), _) => false
      | some ((_, .ok ins), emu') =>
          let flags := ins.info.flags
          if flags &&& OPCODE_FLAG_JUMP ≠ 0 then
            if flags &&& (OPCODE_FLAG_CALL ||| OPCODE_FLAG_CONDITIONAL) = 0 then true
            else if flags &&& OPCODE_FLAG_CALL ≠ 0 then
              match ins.get_jump_target.bind (fun addr => emu'.expand_addr addr) with
              | some xat =>
                  if (get_tags_at emu.info.tags xat).any (fun xt => xt.2.isNoReturn) then true
                  else endScanLoop fuel emu'
              | none => endScanLoop fuel emu'
            else endScanLoop fuel emu'
          else endScanLoop fuel emu'

/-- The end-instruction scan of one recorded head block. -/
def endScan (info : AnalInfo) (xa : XAddr) (len : Nat) : Option Bool :=
  match AnalEmu.with_bound info xa len with
  | none => none
  | some emu => some (endScanLoop (emu.decoder.slice.length + 1) emu)

/-- The `'lop_scan` loop of `search_for_code` over one parent block
`(xstart, max_len)`: while `offset < max_len`, extract the head block at
`xstart + offset as u16`; a failed extraction discards the rest of the
cut; a recorded block is followed by the end-instruction scan, which
either abandons the cut or continues at `offset + len`.  Each iteration
increases `offset` by at least one, so fuel `max_len + 1` cannot run
out; its (unreachable) exhaustion is mapped to a panic (`none`). -/
def searchCut (info : AnalInfo) (xstart : XAddr) (max_len : Nat) :
    Nat → Nat → Option (List (XAddr × Nat))
  | 0, _ => none
  | fuel + 1, offset =>
      if offset < max_len then
        match scan_head_block info (xstart + offset % 0x10000) (max_len - offset) with
        | none => none
        | some none => some []
        | some (some (xa, len)) =>
            match endScan info xa len with
            | none => none
            | some true => some [(xa, len)]
            | some false =>
                (searchCut info xstart max_len fuel (offset + len)).map
                  (fun rest => (xa, len) :: rest)
      else some []

/-- `search_for_code(info, parent_blocks)` from `src/anal.rs`. -/
def search_for_code (info : AnalInfo) (parent_blocks : List (XAddr × Nat)) :
    Option (List (XAddr × Nat)) :=
  parent_blocks.foldl
    (fun acc blk =>
      match acc with
      | none => none
      | some r => (searchCut info blk.1 blk.2 (blk.2 + 1) 0).map (fun found => r ++ found))
    (some [])

/-- `cut_blocks(info, points)` from `src/anal.rs`.  `superslice`'s
`lower_bound` (first index whose element is `≥ key`) and `upper_bound`
(first index whose element is `> key`) on the sorted `points` equal the
counts of elements `< key` and `≤ key` respectively. -/
def cut_blocks (info : AnalInfo) (points : List XAddr) : List (XAddr × Nat) :=
  ((List.range info.rom_bank_count).map (fun i =>
    let bank_block := info.rom_bank_block i
    let bank_xa := bank_block.1
    let bank_len := bank_block.2
    let point_beg := points.countP (fun p => decide (p < bank_xa))
    let point_end := points.countP (fun p => decide (p ≤ bank_xa + bank_len % 0x10000))
    (List.range' point_beg (point_end - point_beg)).map (fun j =>
      let xa := points.getD j (XAddr.mk 0 0)
      let len :=
        if j + 1 = point_end then bank_len - (xa.addr - bank_xa.addr)
        else (points.getD (j + 1) (XAddr.mk 0 0)).addr - xa.addr
      (xa, len)))).flatten

/-- The `'lop_ins` loop of `scan_xrefs` over one code block: walk the
emulator while it yields `Ok` instructions; skip an instruction carrying a
`DontFollowCall` tag; otherwise record the expansion of its jump target
when both are defined.  Fuel as in `scanHeadLoop`. -/
def scanXrefsLoop : Nat → AnalEmu → List XAddr
  | 0, _ => []
  | fuel + 1, emu =>
      match emu.next with
      | none => []
      | some ((_, .error _), _) => []
      | some ((ins_xa, .ok ins), emu') =>
          if (get_tags_at emu.info.tags ins_xa).any (fun xt => xt.2.isDontFollowCall) then
            scanXrefsLoop fuel emu'
          else
            match ins.get_jump_target with
            | some addr =>
                match emu'.expand_addr addr with
                | some xa => xa :: scanXrefsLoop fuel emu'
                | none => scanXrefsLoop fuel emu'
            | none => scanXrefsLoop fuel emu'

/-- Sorted insertion, for embedding `Vec::sort`. -/
def insert_sorted [LinearOrder α] (x : α) : List α → List α
  | [] => [x]
  | y :: ys => if x ≤ y then x :: y :: ys else y :: insert_sorted x ys

/-- `Vec::sort` yields the sorted permutation of its input, which for a
linear order (equal elements being propositionally equal) is the unique
sorted arrangement; it is computed here by insertion sort. -/
def sortList [LinearOrder α] (l : List α) : List α :=
  l.foldr insert_sorted []

/-- `Vec::dedup`: remove consecutive duplicates. -/
def dedupConsec [DecidableEq α] : List α → List α
  | [] => []
  | [a] => [a]
  | a :: b :: rest =>
      if a = b then dedupConsec (b :: rest) else a :: dedupConsec (b :: rest)

/-- `scan_xrefs(info, code_blocks)` from `src/anal.rs` (ending with
`result.sort(); result.dedup()`). -/
def scan_xrefs (info : AnalInfo) (code_blocks : List (XAddr × Nat)) : Option (List XAddr) :=
  (code_blocks.foldl
    (fun acc blk =>
      match acc with
      | none => none
      | some r =>
          match AnalEmu.with_bound info blk.1 blk.2 with
          | none => none
          | some emu => some (r ++ scanXrefsLoop (emu.decoder.slice.length + 1) emu))
    (some [])).map (fun r => dedupConsec (sortList r))

/-- The `loop` body of `anal` from `src/anal.rs`, with the iteration count
made explicit as fuel (the Rust loop has no a-priori bound; every
observable return of `anal` is reached at some finite fuel).  `none`
models a panic (or fuel exhaustion); logging is not modelled. -/
def analGo (info : AnalInfo) (entry_points : List XAddr) :
    Nat → List XAddr → Option (List (XAddr × Nat))
  | 0, _ => none
  | fuel + 1, points =>
      match search_for_code info (cut_blocks info points) with
      | none => none
      | some code_blocks =>
          match scan_xrefs info code_blocks with
          | none => none
          | some code_xrefs =>
              let new_points := dedupConsec (sorted_merge entry_points code_xrefs)
              if new_points = points then some code_blocks
              else if new_points.length < points.length then some code_blocks
              else analGo info entry_points fuel new_points

/-- `anal(info, entry_points)` from `src/anal.rs`: dedup the entry points,
then run the fixpoint loop. -/
def anal (info : AnalInfo) (entry_points : List XAddr) (fuel : Nat) :
    Option (List (XAddr × Nat)) :=
  analGo info entry_points fuel (dedupConsec entry_points)

/-! ## Theorems -/

section Theorems

/-- C9: For every `XAddr` `xa` and every `u16` `n`, `xa + n` has the same
bank as `xa`, and its `addr` equals `xa.addr + n` computed on the 16-bit
`addr` half only: any wrap stays within the `addr` field (the result's
`addr` is `< 2^16`) and never carries into or otherwise changes the
bank. -/
theorem C9_xaddr_add_u16 (xa : XAddr) (n : Nat) :
    (XAddr.addU16 xa n).bank = xa.bank ∧
    (XAddr.addU16 xa n).addr = (xa.addr + n) % 0x10000 ∧
    (XAddr.addU16 xa n).addr < 0x10000 := by
  refine ⟨rfl, rfl, ?_⟩
  exact Nat.mod_lt _ (by norm_num)

/-- C7 (refuting the claim on the code as written): the `Tag` enum
declared in `src/tags.rs` has no constructor realising the `JumpTable`,
`DontFollowCall` or `Comment` kinds of the spec's tag data model, even
though `src/anal.rs` and `src/main.rs` pattern-match those three
constructors. -/
theorem C7_tag_kinds_missing (t : TagsRs.Tag) :
    t.kind ≠ TagKind.JumpTable ∧ t.kind ≠ TagKind.DontFollowCall ∧
    t.kind ≠ TagKind.Comment := by
  cases t <;> simp [TagsRs.Tag.kind]

/-- C4: `expand_addr` follows the spec table exactly: `0x4000..=0x7FFF`
maps through the ROM-bank register under `big_rom` and to bank `0` under
`small_rom`; `0xA000..=0xBFFF` maps through the SRAM-bank register;
`0xD000..=0xDFFF` maps through the WRAM-bank register under `cgb_ram` and
to bank `0` otherwise; every other address maps to bank `0`.  (An
`Option.map` over a bank register is `none` exactly when the register is
unknown.) -/
theorem C4_expand_addr_table (e : AnalEmu) (addr : Nat) :
    (0x4000 ≤ addr → addr ≤ 0x7FFF →
      (e.info.rom_info.big_rom = true →
        e.expand_addr addr = e.romb.map (fun b => XAddr.mk b addr)) ∧
      (e.info.rom_info.big_rom = false →
        e.expand_addr addr = some (XAddr.mk 0 addr))) ∧
    (0xA000 ≤ addr → addr ≤ 0xBFFF →
      e.expand_addr addr = e.srmb.map (fun b => XAddr.mk b addr)) ∧
    (0xD000 ≤ addr → addr ≤ 0xDFFF →
      (e.info.rom_info.cgb_ram = true →
        e.expand_addr addr = e.ramb.map (fun b => XAddr.mk b addr)) ∧
      (e.info.rom_info.cgb_ram = false →
        e.expand_addr addr = some (XAddr.mk 0 addr))) ∧
    (¬ (0x4000 ≤ addr ∧ addr ≤ 0x7FFF) → ¬ (0xA000 ≤ addr ∧ addr ≤ 0xBFFF) →
      ¬ (0xD000 ≤ addr ∧ addr ≤ 0xDFFF) →
      e.expand_addr addr = some (XAddr.mk 0 addr)) := by
  refine ⟨fun h1 h2 => ⟨fun hbig => ?_, fun hsml => ?_⟩,
          fun h1 h2 => ?_,
          fun h1 h2 => ⟨fun hcgb => ?_, fun hncgb => ?_⟩,
          fun hn1 hn2 hn3 => ?_⟩
  · simp [AnalEmu.expand_addr, h1, h2, hbig]
  · simp [AnalEmu.expand_addr, h1, h2, hsml]
  · have hn : ¬ (0x4000 ≤ addr ∧ addr ≤ 0x7FFF) := by omega
    simp [AnalEmu.expand_addr, hn, h1, h2]
  · have hna : ¬ (0x4000 ≤ addr ∧ addr ≤ 0x7FFF) := by omega
    have hnb : ¬ (0xA000 ≤ addr ∧ addr ≤ 0xBFFF) := by omega
    simp [AnalEmu.expand_addr, hna, hnb, h1, h2, hcgb]
  · have hna : ¬ (0x4000 ≤ addr ∧ addr ≤ 0x7FFF) := by omega
    have hnb : ¬ (0xA000 ≤ addr ∧ addr ≤ 0xBFFF) := by omega
    simp [AnalEmu.expand_addr, hna, hnb, h1, h2, hncgb]
  · simp [AnalEmu.expand_addr, hn1, hn2, hn3]

/-- Helper def used by witnesses: a tiny big-ROM emulator state. -/
def emuC4 : AnalEmu where
  info :=
    { rom := []
      rom_info := { big_rom := true, cgb_ram := false, sram_count := 0 }
      tags := [] }
  decoder := DecodeSliceIter.mk (XAddr.mk 0 0) []
  romb := some 5
  ramb := none
  srmb := none

/-- Witness for C4 at a concrete state and operand. -/
theorem C4_expand_addr_table_witness :
    emuC4.expand_addr 0x4321 = some (XAddr.mk 5 0x4321) := by
  have h := ((C4_expand_addr_table emuC4 0x4321).1 (by norm_num) (by norm_num)).1 rfl
  simpa [emuC4] using h

theorem applyBankTag_decoder (e : AnalEmu) (xt : XAddr × Tag) :
    (applyBankTag e xt).decoder = e.decoder := by
  cases h : xt.2 <;> simp [applyBankTag, h]

theorem applyBankTags_decoder (ts : List (XAddr × Tag)) (e : AnalEmu) :
    (applyBankTags ts e).decoder = e.decoder := by
  induction ts generalizing e with
  | nil => rfl
  | cons t ts ih =>
      simp only [applyBankTags, List.foldl_cons] at *
      rw [ih, applyBankTag_decoder]

theorem emu_run_eq_decoder_run (fuel : Nat) :
    ∀ e : AnalEmu, AnalEmu.run fuel e = DecodeSliceIter.run fuel e.decoder := by
  induction fuel with
  | zero => intro e; rfl
  | succ n ih =>
      intro e
      simp only [AnalEmu.run, DecodeSliceIter.run, AnalEmu.next]
      cases hd : e.decoder.next with
      | none => simp
      | some x =>
          obtain ⟨item, d'⟩ := x
          simp only [ih, applyBankTags_decoder]

/-- C10: the sequence of `(address, decode-result)` items yielded by the
decoding emulator built by `with_bound` is identical, at every length, to
the one yielded by the plain `DecodeSliceIter` over the same ROM slice
(which `with_bound` starts at `xa`): the `RomBank`/`RamBank`/`SrmBank`
tags applied during iteration touch only the emulator's bank registers
and never change which instructions are decoded or their contents. -/
theorem C10_emu_refines_decoder (info : AnalInfo) (xa : XAddr) (len : Nat) (emu : AnalEmu)
    (h : AnalEmu.with_bound info xa len = some emu) (fuel : Nat) :
    emu.decoder.addr = xa ∧
    AnalEmu.run fuel emu = DecodeSliceIter.run fuel emu.decoder := by
  refine ⟨?_, emu_run_eq_decoder_run fuel emu⟩
  unfold AnalEmu.with_bound at h
  cases hrs : info.rom_slice xa len with
  | none => rw [hrs] at h; cases h
  | some r =>
      cases r with
      | error e => rw [hrs] at h; cases h
      | ok s =>
          rw [hrs] at h
          cases h
          rfl

/-- Helper def used by witnesses: a one-byte (`ret`) small-ROM analysis
input with no tags. -/
def infoC6 : AnalInfo where
  rom := [0xC9]
  rom_info := { big_rom := false, cgb_ram := false, sram_count := 0 }
  tags := []

/-- Helper def used by witnesses: the emulator `with_bound` builds on
`infoC6` at `0:0000` with bound 1. -/
def emuC10 : AnalEmu where
  info := infoC6
  decoder := DecodeSliceIter.mk (XAddr.mk 0 0) [0xC9]
  romb := none
  ramb := none
  srmb := none

/-- Witness for C10 at a concrete ROM, start address and bound. -/
theorem C10_emu_refines_decoder_witness :
    emuC10.decoder.addr = XAddr.mk 0 0 ∧
    AnalEmu.run 3 emuC10 = DecodeSliceIter.run 3 emuC10.decoder :=
  C10_emu_refines_decoder infoC6 (XAddr.mk 0 0) 1 emuC10 (by decide) 3

end Theorems

theorem getD_mem {l : List Nat} {n : Nat} (h : n < l.length) : l.getD n 0 ∈ l := by
  induction l generalizing n with
  | nil => simp at h
  | cons a t ih =>
      cases n with
      | zero => simp
      | succ m =>
          rw [List.getD_cons_succ]
          exact List.mem_cons_of_mem a (ih (by simpa using h))

theorem bitops_operand_len : ∀ o < 0x100, (BITOPS_INFO_at o).operand_len = 1 := by decide

theorem bitops_operand_kind :
    ∀ o < 0x100, (BITOPS_INFO_at o).operand_kind = OperandKind.LongOpcode := by decide

/-- For any index, a bit-ops table entry (or the out-of-range default) has
operand kind `LongOpcode` or `None`; in particular never `CodeRelative` or
`DataHram`. -/
theorem bitops_kind_cases (o : Nat) :
    (BITOPS_INFO_at o).operand_kind = OperandKind.LongOpcode ∨
    (BITOPS_INFO_at o).operand_kind = OperandKind.None := by
  by_cases h : o < 0x100
  · exact Or.inl (bitops_operand_kind o h)
  · right
    have hlen : BITOPS_INFO.length ≤ o := by
      have : BITOPS_INFO.length = 0x100 := by rfl
      omega
    rw [BITOPS_INFO_at, List.getD_eq_default _ _ hlen]
    rfl

theorem code_relative_operand_len :
    ∀ o < 0x100, (OPCODE_INFO_at o).operand_kind = OperandKind.CodeRelative →
      (OPCODE_INFO_at o).operand_len = 1 := by decide

theorem datahram_operand_len :
    ∀ o < 0x100, (OPCODE_INFO_at o).operand_kind = OperandKind.DataHram →
      (OPCODE_INFO_at o).operand_len = 1 := by decide

theorem info_of_ne_bitops {i : Instruction} (h : i.opcode ≠ 0xCB) :
    i.info = OPCODE_INFO_at i.opcode := by
  simp [Instruction.info, OPCODE_BITOPS, h]

theorem fixup_opcode (addr : Nat) (i : Instruction) : (fixup addr i).opcode = i.opcode := by
  unfold fixup
  split
  · rfl
  split <;> rfl

theorem fixup_encoded_len (addr : Nat) (i : Instruction) :
    (fixup addr i).encoded_len = i.encoded_len := by
  by_cases hcb : i.opcode = 0xCB
  · have hkind : i.info.operand_kind = OperandKind.LongOpcode ∨
        i.info.operand_kind = OperandKind.None := by
      simp only [Instruction.info, OPCODE_BITOPS]
      rw [if_pos hcb]
      exact bitops_kind_cases i.operand
    unfold fixup
    rcases hkind with hk | hk <;> simp [hk]
  · have hinfo : ∀ op, (Instruction.mk i.opcode op).info = OPCODE_INFO_at i.opcode :=
      fun op => info_of_ne_bitops hcb
    unfold fixup
    cases hk : i.info.operand_kind <;>
      simp [hk, Instruction.encoded_len, hinfo, info_of_ne_bitops hcb]

/-- Inversion of a successful `decode`: the slice is non-empty, the
encoded length (computed from the opcode byte) fits in the slice, and the
result is the fixed-up instruction built from the opcode byte and the
little-endian raw operand. -/
theorem decode_ok_elim {addr : Nat} {slice : List Nat} {ins : Instruction}
    (h : decode addr slice = .ok ins) :
    slice.length ≠ 0 ∧
    (Instruction.mk (slice.getD 0 0) 0).encoded_len ≤ slice.length ∧
    ins = fixup addr (Instruction.mk (slice.getD 0 0)
      (read_operand slice ((Instruction.mk (slice.getD 0 0) 0).encoded_len))) := by
  simp only [decode] at h
  split at h
  · cases h
  next h0 =>
    split at h
    · cases h
    next hv =>
      split at h
      · cases h
      next hlen =>
        cases h
        exact ⟨h0, Nat.le_of_not_lt hlen, rfl⟩

theorem decode_ok_len_bounds {addr : Nat} {slice : List Nat} {ins : Instruction}
    (hb : ∀ b ∈ slice, b < 0x100) (h : decode addr slice = .ok ins) :
    1 ≤ ins.encoded_len ∧ ins.encoded_len ≤ slice.length := by
  obtain ⟨h0, hlen, hins⟩ := decode_ok_elim h
  refine ⟨by unfold Instruction.encoded_len; omega, ?_⟩
  subst hins
  rw [fixup_encoded_len]
  by_cases hcb : slice.getD 0 0 = 0xCB
  · rw [hcb] at hlen ⊢
    have h2 : (Instruction.mk 0xCB 0).encoded_len = 2 := by decide
    rw [h2] at hlen ⊢
    have hro : read_operand slice 2 = slice.getD 1 0 := by
      have hr1 : List.range 1 = [0] := by decide
      simp [read_operand, hr1, Nat.shiftLeft_zero]
    rw [hro]
    have hmem : slice.getD 1 0 ∈ slice := getD_mem (by omega)
    have hbl := bitops_operand_len _ (hb _ hmem)
    have h3 : (Instruction.mk 0xCB (slice.getD 1 0)).encoded_len =
        (BITOPS_INFO_at (slice.getD 1 0)).operand_len + 1 := by
      simp [Instruction.encoded_len, Instruction.info, OPCODE_BITOPS]
    rw [h3, hbl]
    omega
  · have hi : ∀ op, (Instruction.mk (slice.getD 0 0) op).info =
        OPCODE_INFO_at (slice.getD 0 0) := fun op => info_of_ne_bitops hcb
    have e1 : (Instruction.mk (slice.getD 0 0)
        (read_operand slice ((Instruction.mk (slice.getD 0 0) 0).encoded_len))).encoded_len =
        (Instruction.mk (slice.getD 0 0) 0).encoded_len := by
      unfold Instruction.encoded_len
      rw [hi, hi]
    rw [e1]
    exact hlen

/-- C1 (amended): a `decode_slice` iterator step behaves as follows.  On
an empty slice it yields nothing (the sequence is finite and ends there).
On a successful decode it yields the instruction and advances the address
by the instruction's encoded length while consuming exactly that many
bytes — which strictly shrinks the slice, so a run with no decode errors
is finite.  On a decode error (with a non-empty slice) it yields the error
with the iterator state unchanged, so the same erroring item is yielded
again by every subsequent step: the sequence does NOT terminate at the
error (callers stop at the first error themselves). -/
theorem C1_decode_slice_step (s : DecodeSliceIter) (hb : ∀ b ∈ s.slice, b < 0x100) :
    (s.slice = [] → s.next = none) ∧
    (∀ ins, decode s.addr.addr s.slice = .ok ins →
      s.next = some ((s.addr, .ok ins),
        DecodeSliceIter.mk (s.addr.addU16 ins.encoded_len) (s.slice.drop ins.encoded_len)) ∧
      1 ≤ ins.encoded_len ∧ ins.encoded_len ≤ s.slice.length ∧
      (s.slice.drop ins.encoded_len).length < s.slice.length) ∧
    (∀ e, s.slice ≠ [] → decode s.addr.addr s.slice = .error e →
      s.next = some ((s.addr, .error e), s)) := by
  refine ⟨fun hnil => ?_, fun ins hok => ?_, fun e hne herr => ?_⟩
  · simp [DecodeSliceIter.next, hnil]
  · obtain ⟨h1, h2⟩ := decode_ok_len_bounds hb hok
    have h0 : s.slice.length ≠ 0 := (decode_ok_elim hok).1
    refine ⟨?_, h1, h2, ?_⟩
    · simp [DecodeSliceIter.next, h0, hok]
    · rw [List.length_drop]; omega
  · have h0 : ¬ (s.slice.length = 0) := fun hh => hne (List.length_eq_zero.mp hh)
    simp [DecodeSliceIter.next, h0, herr]

/-- Witness for C1's amended theorem: decoding `nop` at `0:0000` advances
the address by 1 and consumes the byte. -/
theorem C1_decode_slice_step_witness :
    (DecodeSliceIter.mk (XAddr.mk 0 0) [0x00]).next =
      some ((XAddr.mk 0 0, .ok (Instruction.mk 0 0)), DecodeSliceIter.mk (XAddr.mk 0 1) []) := by
  have h := ((C1_decode_slice_step (DecodeSliceIter.mk (XAddr.mk 0 0) [0x00])
    (by decide)).2.1 (Instruction.mk 0 0) (by decide)).1
  exact h.trans (by decide)

/-- Counterexample to C1 as stated: on `[0xD3]` (an invalid opcode) at
`0:0000`, the first yielded item is a decode error, and the next step
yields the very same error item again — the erroring item is not the
final item of the sequence. -/
theorem C1_error_repeats_counterexample :
    DecodeSliceIter.run 2 (decode_slice (XAddr.mk 0 0) [0xD3]) =
      [(XAddr.mk 0 0, .error .InvalidOpcode), (XAddr.mk 0 0, .error .InvalidOpcode)] := by
  decide

/-- C5: `get_jump_target` returns the fixed vectors
`0x00/0x08/0x10/0x18/0x20/0x28/0x30/0x38` for the eight `RST` opcodes; for
any other instruction it returns `some operand` exactly when its
opcode-info has the `JUMP` flag set and `operand_kind ≠ None`, and `none`
otherwise — in particular `none` for the conditional rets, `ret`, `reti`
and `jp hl`. -/
theorem C5_get_jump_target_spec :
    ((∀ op, (Instruction.mk 0xC7 op).get_jump_target = some 0x00) ∧
     (∀ op, (Instruction.mk 0xCF op).get_jump_target = some 0x08) ∧
     (∀ op, (Instruction.mk 0xD7 op).get_jump_target = some 0x10) ∧
     (∀ op, (Instruction.mk 0xDF op).get_jump_target = some 0x18) ∧
     (∀ op, (Instruction.mk 0xE7 op).get_jump_target = some 0x20) ∧
     (∀ op, (Instruction.mk 0xEF op).get_jump_target = some 0x28) ∧
     (∀ op, (Instruction.mk 0xF7 op).get_jump_target = some 0x30) ∧
     (∀ op, (Instruction.mk 0xFF op).get_jump_target = some 0x38)) ∧
    (∀ opcode op, opcode < 0x100 →
      opcode ∉ ([0xC7, 0xCF, 0xD7, 0xDF, 0xE7, 0xEF, 0xF7, 0xFF] : List Nat) →
      (Instruction.mk opcode op).get_jump_target =
        if (Instruction.mk opcode op).info.flags &&& OPCODE_FLAG_JUMP ≠ 0 ∧
           (Instruction.mk opcode op).info.operand_kind ≠ OperandKind.None
        then some op else none) ∧
    ((∀ op, (Instruction.mk 0xC0 op).get_jump_target = none) ∧
     (∀ op, (Instruction.mk 0xC8 op).get_jump_target = none) ∧
     (∀ op, (Instruction.mk 0xD0 op).get_jump_target = none) ∧
     (∀ op, (Instruction.mk 0xD8 op).get_jump_target = none) ∧
     (∀ op, (Instruction.mk 0xC9 op).get_jump_target = none) ∧
     (∀ op, (Instruction.mk 0xD9 op).get_jump_target = none) ∧
     (∀ op, (Instruction.mk 0xE9 op).get_jump_target = none)) := by
  have hmid : ∀ opcode op, opcode < 0x100 →
      opcode ∉ ([0xC7, 0xCF, 0xD7, 0xDF, 0xE7, 0xEF, 0xF7, 0xFF] : List Nat) →
      (Instruction.mk opcode op).get_jump_target =
        if (Instruction.mk opcode op).info.flags &&& OPCODE_FLAG_JUMP ≠ 0 ∧
           (Instruction.mk opcode op).info.operand_kind ≠ OperandKind.None
        then some op else none := by
    intro opcode op hlt hmem
    simp only [List.mem_cons, List.not_mem_nil, or_false, not_or] at hmem
    obtain ⟨n1, n2, n3, n4, n5, n6, n7, n8⟩ := hmem
    simp only [Instruction.get_jump_target, OPCODE_RST_00, OPCODE_RST_08, OPCODE_RST_10,
      OPCODE_RST_18, OPCODE_RST_20, OPCODE_RST_28, OPCODE_RST_30, OPCODE_RST_38]
    rw [if_neg n1, if_neg n2, if_neg n3, if_neg n4, if_neg n5, if_neg n6, if_neg n7, if_neg n8]
  have hnone : ∀ opcode, opcode < 0x100 →
      opcode ∉ ([0xC7, 0xCF, 0xD7, 0xDF, 0xE7, 0xEF, 0xF7, 0xFF] : List Nat) →
      opcode ≠ 0xCB →
      ¬ ((OPCODE_INFO_at opcode).flags &&& OPCODE_FLAG_JUMP ≠ 0 ∧
         (OPCODE_INFO_at opcode).operand_kind ≠ OperandKind.None) →
      ∀ op, (Instruction.mk opcode op).get_jump_target = none := by
    intro opcode hlt hmem hcb hneg op
    have h := hmid opcode op hlt hmem
    rw [@info_of_ne_bitops (Instruction.mk opcode op) hcb] at h
    dsimp only at h
    exact h.trans (if_neg hneg)
  refine ⟨⟨fun op => rfl, fun op => rfl, fun op => rfl, fun op => rfl,
           fun op => rfl, fun op => rfl, fun op => rfl, fun op => rfl⟩,
          hmid,
          ⟨hnone 0xC0 (by norm_num) (by decide) (by norm_num) (by decide),
           hnone 0xC8 (by norm_num) (by decide) (by norm_num) (by decide),
           hnone 0xD0 (by norm_num) (by decide) (by norm_num) (by decide),
           hnone 0xD8 (by norm_num) (by decide) (by norm_num) (by decide),
           hnone 0xC9 (by norm_num) (by decide) (by norm_num) (by decide),
           hnone 0xD9 (by norm_num) (by decide) (by norm_num) (by decide),
           hnone 0xE9 (by norm_num) (by decide) (by norm_num) (by decide)⟩⟩

/-- Witness for C5: `jp $1234` (opcode `0xC3`, `JUMP` flag set, operand
kind `Code`) yields its operand as jump target. -/
theorem C5_get_jump_target_spec_witness :
    (Instruction.mk 0xC3 0x1234).get_jump_target = some 0x1234 := by
  have h := C5_get_jump_target_spec.2.1 0xC3 0x1234 (by norm_num) (by decide)
  exact h.trans (by decide)

/-- The little-endian shift-accumulate of `read_operand` equals the
positional sum of the operand bytes with weights `0x100 ^ i`. -/
theorem foldl_shift_eq_pow (slice : List Nat) : ∀ (l : List Nat) (acc : Nat),
    l.foldl (fun acc i => acc + (slice.getD (1 + i) 0) <<< (i * 8)) acc =
    l.foldl (fun acc i => acc + (slice.getD (1 + i) 0) * 0x100 ^ i) acc := by
  intro l
  induction l with
  | nil => intro acc; rfl
  | cons x t ih =>
      intro acc
      simp only [List.foldl_cons]
      rw [ih]
      congr 2
      rw [Nat.shiftLeft_eq]
      congr 1
      rw [Nat.mul_comm x 8, Nat.pow_mul]

theorem read_operand_eq_pow (slice : List Nat) (len : Nat) :
    read_operand slice len = (List.range (len - 1)).foldl
      (fun acc i => acc + (slice.getD (1 + i) 0) * 0x100 ^ i) 0 := by
  unfold read_operand
  exact foldl_shift_eq_pow slice (List.range (len - 1)) 0

/-- C3: on every successful decode the stored operand is fixed up before
returning.  For operand kind `CodeRelative` the stored operand is
`(addr + 2 + sign_extend(op8)) mod 2^16` where `op8` is the raw 8-bit
operand byte; for `DataHram` it is `0xFF00 + op8`; for every other
operand kind the little-endian operand bytes are stored unchanged
(as `Σ byte_i · 0x100^i`). -/
theorem C3_decode_fixups (addr : Nat) (slice : List Nat) (ins : Instruction)
    (_haddr : addr < 0x10000) (hb : ∀ b ∈ slice, b < 0x100)
    (h : decode addr slice = .ok ins) :
    (ins.info.operand_kind = OperandKind.CodeRelative →
      ins.operand = (((addr : Int) + 2 + signExtend8 (slice.getD 1 0)) % 0x10000).toNat) ∧
    (ins.info.operand_kind = OperandKind.DataHram →
      ins.operand = 0xFF00 + slice.getD 1 0) ∧
    (ins.info.operand_kind ≠ OperandKind.CodeRelative →
      ins.info.operand_kind ≠ OperandKind.DataHram →
      ins.operand = (List.range ((Instruction.mk ins.opcode 0).encoded_len - 1)).foldl
        (fun acc i => acc + (slice.getD (1 + i) 0) * 0x100 ^ i) 0) := by
  obtain ⟨h0, hlen, hins⟩ := decode_ok_elim h
  have hop : slice.getD 0 0 < 0x100 := hb _ (getD_mem (by omega))
  by_cases hcb : slice.getD 0 0 = 0xCB
  · -- CB prefix: the bit-ops operand kind is LongOpcode, so no fix-up.
    have hlen2 : 2 ≤ slice.length := by
      have h2 : (Instruction.mk (slice.getD 0 0) 0).encoded_len = 2 := by rw [hcb]; decide
      omega
    have hraw_eq : read_operand slice ((Instruction.mk (slice.getD 0 0) 0).encoded_len) =
        slice.getD 1 0 := by
      rw [hcb]
      have h2 : (Instruction.mk 0xCB 0).encoded_len = 2 := by decide
      rw [h2]
      have hr1 : List.range 1 = [0] := by decide
      simp [read_operand, hr1, Nat.shiftLeft_zero]
    have hrawlt : read_operand slice ((Instruction.mk (slice.getD 0 0) 0).encoded_len) < 0x100 := by
      rw [hraw_eq]
      exact hb _ (getD_mem (by omega))
    have hbinfo : (Instruction.mk (slice.getD 0 0)
        (read_operand slice ((Instruction.mk (slice.getD 0 0) 0).encoded_len))).info =
        BITOPS_INFO_at (read_operand slice ((Instruction.mk (slice.getD 0 0) 0).encoded_len)) := by
      have hcb' : (Instruction.mk (slice.getD 0 0)
          (read_operand slice ((Instruction.mk (slice.getD 0 0) 0).encoded_len))).opcode =
          OPCODE_BITOPS := hcb
      simp only [Instruction.info]
      rw [if_pos hcb']
    have hkind : (Instruction.mk (slice.getD 0 0)
        (read_operand slice ((Instruction.mk (slice.getD 0 0) 0).encoded_len))).info.operand_kind =
        OperandKind.LongOpcode := by
      rw [hbinfo]
      exact bitops_operand_kind _ hrawlt
    have hfix : ins = Instruction.mk (slice.getD 0 0)
        (read_operand slice ((Instruction.mk (slice.getD 0 0) 0).encoded_len)) := by
      rw [hins]
      unfold fixup
      rw [hkind]
      simp
    have hkind' : ins.info.operand_kind = OperandKind.LongOpcode := by rw [hfix]; exact hkind
    refine ⟨fun hK => ?_, fun hK => ?_, fun _ _ => ?_⟩
    · rw [hkind'] at hK; cases hK
    · rw [hkind'] at hK; cases hK
    · rw [hfix]
      exact (read_operand_eq_pow slice _)
  · -- Primary table: the opcode info does not depend on the operand.
    have hinfo : ∀ op, (Instruction.mk (slice.getD 0 0) op).info =
        OPCODE_INFO_at (slice.getD 0 0) := fun op => info_of_ne_bitops hcb
    have hscr : (Instruction.mk (slice.getD 0 0)
        (read_operand slice ((Instruction.mk (slice.getD 0 0) 0).encoded_len))).info.operand_kind =
        (OPCODE_INFO_at (slice.getD 0 0)).operand_kind := by rw [hinfo]
    have hlen_eq : (Instruction.mk (slice.getD 0 0) 0).encoded_len =
        (OPCODE_INFO_at (slice.getD 0 0)).operand_len + 1 := by
      unfold Instruction.encoded_len
      rw [hinfo]
    by_cases hCR : (OPCODE_INFO_at (slice.getD 0 0)).operand_kind = OperandKind.CodeRelative
    · -- CodeRelative: operand_len = 1, raw operand = slice[1]
      have hol : (OPCODE_INFO_at (slice.getD 0 0)).operand_len = 1 :=
        code_relative_operand_len _ hop hCR
      have hlen2 : 2 ≤ slice.length := by omega
      have hraw_eq : read_operand slice ((Instruction.mk (slice.getD 0 0) 0).encoded_len) =
          slice.getD 1 0 := by
        rw [hlen_eq, hol]
        have hr1 : List.range 1 = [0] := by decide
        simp [read_operand, hr1, Nat.shiftLeft_zero]
      have hrawlt : slice.getD 1 0 < 0x100 := hb _ (getD_mem (by omega))
      have hfix : ins = Instruction.mk (slice.getD 0 0)
          ((((addr : Int) + 2 + signExtend8 (slice.getD 1 0 % 0x100)) % 0x10000).toNat) := by
        rw [hins]
        unfold fixup
        rw [hscr, if_pos hCR, hraw_eq]
      have hkind' : ins.info.operand_kind = OperandKind.CodeRelative := by
        rw [hfix, hinfo]; exact hCR
      refine ⟨fun _ => ?_, fun hK => ?_, fun hne _ => absurd hkind' hne⟩
      · rw [hfix]
        rw [Nat.mod_eq_of_lt hrawlt]
      · rw [hkind'] at hK; cases hK
    · by_cases hDH : (OPCODE_INFO_at (slice.getD 0 0)).operand_kind = OperandKind.DataHram
      · -- DataHram: operand_len = 1, raw operand = slice[1]
        have hol : (OPCODE_INFO_at (slice.getD 0 0)).operand_len = 1 :=
          datahram_operand_len _ hop hDH
        have hlen2 : 2 ≤ slice.length := by omega
        have hraw_eq : read_operand slice ((Instruction.mk (slice.getD 0 0) 0).encoded_len) =
            slice.getD 1 0 := by
          rw [hlen_eq, hol]
          have hr1 : List.range 1 = [0] := by decide
          simp [read_operand, hr1, Nat.shiftLeft_zero]
        have hfix : ins = Instruction.mk (slice.getD 0 0) (0xFF00 + slice.getD 1 0) := by
          rw [hins]
          unfold fixup
          rw [hscr, if_neg hCR, if_pos hDH, hraw_eq]
        have hkind' : ins.info.operand_kind = OperandKind.DataHram := by
          rw [hfix, hinfo]; exact hDH
        refine ⟨fun hK => ?_, fun _ => ?_, fun _ hne => absurd hkind' hne⟩
        · rw [hkind'] at hK; cases hK
        · rw [hfix]
      · -- No fix-up
        have hfix : ins = Instruction.mk (slice.getD 0 0)
            (read_operand slice ((Instruction.mk (slice.getD 0 0) 0).encoded_len)) := by
          rw [hins]
          unfold fixup
          rw [hscr, if_neg hCR, if_neg hDH]
        have hkind' : ins.info.operand_kind = (OPCODE_INFO_at (slice.getD 0 0)).operand_kind := by
          rw [hfix, hinfo]
        refine ⟨fun hK => absurd (hkind' ▸ hK) hCR, fun hK => absurd (hkind' ▸ hK) hDH,
          fun _ _ => ?_⟩
        · rw [hfix]
          exact read_operand_eq_pow slice _

/-- Witness for C3: `jr -2` at address `0x0100` stores the absolute
target `0x0100`. -/
theorem C3_decode_fixups_witness :
    decode 0x100 [0x18, 0xFE] = .ok (Instruction.mk 0x18 0x100) ∧
    (Instruction.mk 0x18 0x100).operand =
      (((0x100 : Int) + 2 + signExtend8 (([0x18, 0xFE] : List Nat).getD 1 0)) % 0x10000).toNat := by
  refine ⟨by decide, ?_⟩
  have h := (C3_decode_fixups 0x100 [0x18, 0xFE] (Instruction.mk 0x18 0x100)
    (by norm_num) (by decide) (by decide)).1 (by decide)
  simpa using h

theorem sorted_merge_go_perm [LinearOrder α] :
    ∀ (as bs : List α), (sorted_merge_go as bs).Perm (as ++ bs)
  | [], bs => by simp [sorted_merge_go]
  | a :: as, [] => by simp [sorted_merge_go]
  | a :: as, b :: bs => by
      simp only [sorted_merge_go]
      split
      · exact (sorted_merge_go_perm as (b :: bs)).cons a
      · exact ((sorted_merge_go_perm (a :: as) bs).cons b).trans List.perm_middle.symm
termination_by as bs => as.length + bs.length

theorem sorted_merge_go_sorted [LinearOrder α] :
    ∀ (as bs : List α), as.Sorted (· ≤ ·) → bs.Sorted (· ≤ ·) →
      (sorted_merge_go as bs).Sorted (· ≤ ·)
  | [], bs, _, hb => by simpa [sorted_merge_go] using hb
  | a :: as, [], ha, _ => by simpa [sorted_merge_go] using ha
  | a :: as, b :: bs, ha, hb => by
      simp only [sorted_merge_go]
      split
      case isTrue h =>
        rw [List.sorted_cons]
        refine ⟨fun x hx => ?_, sorted_merge_go_sorted as (b :: bs) (List.sorted_cons.mp ha).2 hb⟩
        have hx' := (sorted_merge_go_perm as (b :: bs)).mem_iff.mp hx
        rcases List.mem_append.mp hx' with h1 | h1
        · exact (List.sorted_cons.mp ha).1 x h1
        · rcases List.mem_cons.mp h1 with rfl | h2
          · exact le_of_lt h
          · exact le_of_lt (lt_of_lt_of_le h ((List.sorted_cons.mp hb).1 x h2))
      case isFalse h =>
        rw [List.sorted_cons]
        refine ⟨fun x hx => ?_, sorted_merge_go_sorted (a :: as) bs ha (List.sorted_cons.mp hb).2⟩
        have hx' := (sorted_merge_go_perm (a :: as) bs).mem_iff.mp hx
        rcases List.mem_append.mp hx' with h1 | h1
        · rcases List.mem_cons.mp h1 with rfl | h2
          · exact le_of_not_lt h
          · exact le_trans (le_of_not_lt h) ((List.sorted_cons.mp ha).1 x h2)
        · exact (List.sorted_cons.mp hb).1 x h1
termination_by as bs => as.length + bs.length

/-- C8: for sorted inputs, `sorted_merge(a, b)` is the sorted arrangement
of the multiset union of `a` and `b` — it is a permutation of `a ++ b`, it
is sorted, and it is the unique such list (i.e. it equals the merge-sort
of `a ∪ b`) — and `sorted_merge(sorted_merge(a, b), [])` is
`sorted_merge(a, b)` (merging with the empty sequence is the identity). -/
theorem C8_sorted_merge_spec [LinearOrder α] (a b : List α)
    (ha : a.Sorted (· ≤ ·)) (hb : b.Sorted (· ≤ ·)) :
    (sorted_merge a b).Perm (a ++ b) ∧
    (sorted_merge a b).Sorted (· ≤ ·) ∧
    (∀ l : List α, l.Perm (a ++ b) → l.Sorted (· ≤ ·) → l = sorted_merge a b) ∧
    sorted_merge (sorted_merge a b) [] = sorted_merge a b := by
  have hid : ∀ l : List α, sorted_merge l [] = l := by
    intro l
    cases l <;> simp [sorted_merge]
  have hperm : (sorted_merge a b).Perm (a ++ b) := by
    by_cases hA : a = []
    · subst hA; simp [sorted_merge]
    · by_cases hB : b = []
      · subst hB; simp [sorted_merge, hA]
      · simp only [sorted_merge, if_neg hA, if_neg hB]
        exact sorted_merge_go_perm a b
  have hsorted : (sorted_merge a b).Sorted (· ≤ ·) := by
    by_cases hA : a = []
    · subst hA; simpa [sorted_merge] using hb
    · by_cases hB : b = []
      · subst hB; simpa [sorted_merge, hA] using ha
      · simp only [sorted_merge, if_neg hA, if_neg hB]
        exact sorted_merge_go_sorted a b ha hb
  exact ⟨hperm, hsorted,
    fun l hpl hsl => List.eq_of_perm_of_sorted (hpl.trans hperm.symm) hsl hsorted,
    hid _⟩

/-- Witness for C8 at concrete sorted inputs. -/
theorem C8_sorted_merge_spec_witness :
    (sorted_merge [1, 3] [2]).Perm ([1, 3] ++ [2]) ∧
    (sorted_merge [1, 3] [2]).Sorted (· ≤ ·) ∧
    (∀ l : List Nat, l.Perm ([1, 3] ++ [2]) → l.Sorted (· ≤ ·) → l = sorted_merge [1, 3] [2]) ∧
    sorted_merge (sorted_merge [1, 3] [2]) [] = sorted_merge [1, 3] [2] :=
  C8_sorted_merge_spec [1, 3] [2] (by decide) (by decide)

theorem sliceIdx_pos (rom : List Nat) (a b : Nat) (h1 : a ≤ b) (h2 : b ≤ rom.length) :
    sliceIdx rom a b = some ((rom.drop a).take (b - a)) := by
  unfold sliceIdx
  rw [if_pos ⟨h1, h2⟩]

theorem sliceIdx_length {rom : List Nat} {a b : Nat} {s : List Nat}
    (h : sliceIdx rom a b = some s) : s.length = min (b - a) (rom.length - a) := by
  unfold sliceIdx at h
  split at h
  · cases h
    rw [List.length_take, List.length_drop]
  · cases h

/-- C2: `rom_slice(xa, len)` classifies and clamps exactly as specified.
Low window `0x0000..=0x3FFF`: `BankedRomAddr` iff `bank ≠ 0`, otherwise a
slice clamped to the bank end `0x4000` under big_rom and to the whole ROM
under small_rom.  Switched window `0x4000..=0x7FFF`: bank `0` succeeds
only under small_rom (else `NonBankedHiRomAddr`); bank `≠ 0` succeeds only
under big_rom (else `BankedRomAddr`), at flat offset
`bank·0x4000 + (addr − 0x4000)`, with out-of-ROM bounds giving
`BankTooHigh`.  `addr ≥ 0x8000` gives `NonRomAddr`.  Every returned slice
has length `≤ len`, and for in-bank requests the length is
`min(len, distance to bank end)`. -/
theorem C2_rom_slice_spec (info : AnalInfo) (xa : XAddr) (len : Nat)
    (hmul : info.rom.length % 0x4000 = 0) (hpos : info.rom.length ≠ 0) :
    (xa.addr ≤ 0x3FFF →
      (xa.bank ≠ 0 → info.rom_slice xa len = some (.error .BankedRomAddr)) ∧
      (xa.bank = 0 → info.rom_info.big_rom = true →
        info.rom_slice xa len =
          some (.ok ((info.rom.drop xa.addr).take (min len (0x4000 - xa.addr)))) ∧
        ((info.rom.drop xa.addr).take (min len (0x4000 - xa.addr))).length =
          min len (0x4000 - xa.addr)) ∧
      (xa.bank = 0 → info.rom_info.big_rom = false →
        info.rom_slice xa len =
          some (.ok ((info.rom.drop xa.addr).take (min len (info.rom.length - xa.addr)))))) ∧
    (0x4000 ≤ xa.addr → xa.addr ≤ 0x7FFF →
      (xa.bank = 0 → info.rom_info.big_rom = true →
        info.rom_slice xa len = some (.error .NonBankedHiRomAddr)) ∧
      (xa.bank ≠ 0 → info.rom_info.big_rom = false →
        info.rom_slice xa len = some (.error .BankedRomAddr)) ∧
      (xa.bank ≠ 0 → info.rom_info.big_rom = true →
        (info.rom.length < 0x4000 * xa.bank + min (xa.addr - 0x4000 + len) 0x4000 →
          info.rom_slice xa len = some (.error .BankTooHigh)) ∧
        (0x4000 * xa.bank + min (xa.addr - 0x4000 + len) 0x4000 ≤ info.rom.length →
          info.rom_slice xa len =
            some (.ok ((info.rom.drop (0x4000 * xa.bank + (xa.addr - 0x4000))).take
              (min len (0x8000 - xa.addr)))) ∧
          ((info.rom.drop (0x4000 * xa.bank + (xa.addr - 0x4000))).take
              (min len (0x8000 - xa.addr))).length = min len (0x8000 - xa.addr)))) ∧
    (0x8000 ≤ xa.addr → info.rom_slice xa len = some (.error .NonRomAddr)) ∧
    (∀ s, info.rom_slice xa len = some (.ok s) → s.length ≤ len) := by
  have hL : 0x4000 ≤ info.rom.length := by omega
  refine ⟨fun h3 => ⟨fun hbk => ?_, fun hbk0 hbig => ?_, fun hbk0 hsml => ?_⟩,
          fun h4 h7 => ⟨fun hbk0 hbig => ?_, fun hbk hsml => ?_, fun hbk hbig => ⟨fun hout => ?_, fun hin => ?_⟩⟩,
          fun h8 => ?_,
          fun s hs => ?_⟩
  · unfold AnalInfo.rom_slice
    rw [if_pos h3, if_pos hbk]
  · have heq : min (xa.addr + len) 0x4000 - xa.addr = min len (0x4000 - xa.addr) := by omega
    constructor
    · unfold AnalInfo.rom_slice
      rw [if_pos h3, if_neg (by simpa using hbk0), if_pos hbig,
        sliceIdx_pos _ _ _ (by omega) (by omega), heq]
      rfl
    · rw [List.length_take, List.length_drop]
      omega
  · have heq : min (xa.addr + len) info.rom.length - xa.addr =
        min len (info.rom.length - xa.addr) := by omega
    unfold AnalInfo.rom_slice
    rw [if_pos h3, if_neg (by simpa using hbk0), if_neg (by simp [hsml]),
      sliceIdx_pos _ _ _ (by omega) (by omega), heq]
    rfl
  · unfold AnalInfo.rom_slice
    rw [if_neg (by omega), if_pos h7, if_pos hbk0, if_pos hbig]
  · unfold AnalInfo.rom_slice
    rw [if_neg (by omega), if_pos h7, if_neg hbk]
    simp [hsml]
  · unfold AnalInfo.rom_slice
    rw [if_neg (by omega), if_pos h7, if_neg hbk, if_neg (by simp [hbig]), if_pos (by omega)]
  · have heq : (0x4000 * xa.bank + min (xa.addr - 0x4000 + len) 0x4000) -
        (0x4000 * xa.bank + (xa.addr - 0x4000)) = min len (0x8000 - xa.addr) := by omega
    constructor
    · unfold AnalInfo.rom_slice
      rw [if_neg (by omega), if_pos h7, if_neg hbk, if_neg (by simp [hbig]),
        if_neg (by omega), sliceIdx_pos _ _ _ (by omega) (by omega), heq]
      rfl
    · rw [List.length_take, List.length_drop]
      omega
  · unfold AnalInfo.rom_slice
    rw [if_neg (by omega), if_neg (by omega)]
  · simp only [AnalInfo.rom_slice] at hs
    split at hs
    · split at hs
      · cases hs
      · split at hs
        · obtain ⟨t, ht, htt⟩ := Option.map_eq_some'.mp hs
          cases htt
          have := sliceIdx_length ht
          omega
        · obtain ⟨t, ht, htt⟩ := Option.map_eq_some'.mp hs
          cases htt
          have := sliceIdx_length ht
          omega
    · split at hs
      · split at hs
        · split at hs
          · cases hs
          · obtain ⟨t, ht, htt⟩ := Option.map_eq_some'.mp hs
            cases htt
            have := sliceIdx_length ht
            omega
        · split at hs
          · cases hs
          · split at hs
            · cases hs
            · obtain ⟨t, ht, htt⟩ := Option.map_eq_some'.mp hs
              cases htt
              have := sliceIdx_length ht
              omega
      · cases hs

/-- Helper def used by witnesses: an all-zero one-bank big ROM. -/
def infoC2 : AnalInfo where
  rom := List.replicate 0x4000 0
  rom_info := { big_rom := true, cgb_ram := false, sram_count := 0 }
  tags := []

/-- Witness for C2 at a concrete low-window request under big_rom. -/
theorem C2_rom_slice_spec_witness :
    infoC2.rom_slice (XAddr.mk 0 0x100) 5 =
      some (.ok ((infoC2.rom.drop 0x100).take (min 5 (0x4000 - 0x100)))) := by
  have hrom : infoC2.rom = List.replicate 0x4000 0 := rfl
  have hm : infoC2.rom.length % 0x4000 = 0 := by
    rw [hrom, List.length_replicate]
  have hp : infoC2.rom.length ≠ 0 := by
    rw [hrom, List.length_replicate]
    norm_num
  exact (((C2_rom_slice_spec infoC2 (XAddr.mk 0 0x100) 5 hm hp).1 (by norm_num)).2.1 rfl rfl).1

/-- C6: in every cycle of the discovery engine's fixpoint loop, after
merging the entry points with the harvested xrefs and deduplicating: if
the new point set equals the previous one the engine returns the current
cycle's code-block set; if it has strictly fewer points it returns the
current code-block set anyway (after warning, which is not modelled)
rather than iterating or failing; in every other case it performs another
cycle on the new point set. -/
theorem C6_anal_fixpoint_cases (info : AnalInfo) (entry_points points : List XAddr) (fuel : Nat)
    (code_blocks : List (XAddr × Nat)) (code_xrefs : List XAddr)
    (hsearch : search_for_code info (cut_blocks info points) = some code_blocks)
    (hxrefs : scan_xrefs info code_blocks = some code_xrefs) :
    (dedupConsec (sorted_merge entry_points code_xrefs) = points →
      analGo info entry_points (fuel + 1) points = some code_blocks) ∧
    (dedupConsec (sorted_merge entry_points code_xrefs) ≠ points →
      (dedupConsec (sorted_merge entry_points code_xrefs)).length < points.length →
      analGo info entry_points (fuel + 1) points = some code_blocks) ∧
    (dedupConsec (sorted_merge entry_points code_xrefs) ≠ points →
      ¬ (dedupConsec (sorted_merge entry_points code_xrefs)).length < points.length →
      analGo info entry_points (fuel + 1) points =
        analGo info entry_points fuel (dedupConsec (sorted_merge entry_points code_xrefs))) := by
  refine ⟨fun h1 => ?_, fun h1 h2 => ?_, fun h1 h2 => ?_⟩ <;>
    · simp only [analGo, hsearch, hxrefs]
      simp [h1, *]

/-- Witness for C6: the one-instruction (`ret`) ROM reaches the fixpoint
in the first cycle (the merged point set equals the previous one) and the
engine returns that cycle's single code block. -/
theorem C6_anal_fixpoint_cases_witness :
    analGo infoC6 [XAddr.mk 0 0] 1 [XAddr.mk 0 0] = some [(XAddr.mk 0 0, 1)] :=
  (C6_anal_fixpoint_cases infoC6 [XAddr.mk 0 0] [XAddr.mk 0 0] 0 [(XAddr.mk 0 0, 1)] []
    (by decide) (by decide)).1 (by decide)

end Bub
